import Mathlib

/-!
Verification of the warehouse/trucker registry service against its
specification.  The registry state (active tables and archive tables from
`models.py`), the request schemas (`schemas.py`) and the endpoint handlers
(`main.py`) are shallowly embedded as executable Lean definitions.  Dates are
modelled as integer day numbers (days since 1970-01-01, as with Python's
`date.toordinal` up to a constant shift); calendar months are recovered with
the standard civil-from-days conversion.  Each endpoint runs as one database
transaction, so an operation is a function from the store to a pair of the
post-state and a result; a failed operation returns the unchanged store
(rollback) together with the error.  Floating-point arithmetic in the
analytics endpoints is idealised as exact rational arithmetic.
-/

namespace Warehouse

/-- Error taxonomy of the service: `notFound` (missing entity), `conflict`
(explicit duplicate check in an endpoint, HTTP 400), `uniqueViolation`
(database unique-constraint failure at commit, surfaced as a server error),
`validationError` (request schema rejected the input). -/
inductive Err where
  | notFound
  | conflict
  | uniqueViolation
  | validationError
deriving Repr, DecidableEq

/-- Row of the active `employees` table (`models.Employee`). -/
structure Employee where
  id : Nat
  first_name : String
  last_name : String
  email : String
  phone_number : Option String
  position : String
  is_active : Bool
  registration_date : Int
deriving Repr, DecidableEq

/-- Row of the active `truckers` table (`models.Trucker`). -/
structure Trucker where
  id : Nat
  first_name : String
  last_name : String
  email : Option String
  phone_number : String
  driver_license_number : String
  province_of_issue : String
  truck_id_number : Option String
  company_name : Option String
  is_active : Bool
  registration_date : Int
deriving Repr, DecidableEq

/-- Row of the active `documents` table (`models.Document`). -/
structure Document where
  id : Nat
  document_type : String
  file_path : String
  upload_date : Int
  is_verified : Bool
  verification_date : Option Int
  verified_by : Option String
  employee_id : Option Nat
  trucker_id : Option Nat
deriving Repr, DecidableEq

/-- Row of the `archived_employees` table (`models.ArchivedEmployee`).  The
surrogate autoincrement primary key is omitted; rows are identified by
`original_id`, which carries a unique constraint. -/
structure ArchivedEmployee where
  original_id : Nat
  first_name : String
  last_name : String
  email : String
  phone_number : Option String
  position : String
  is_active : Bool
  registration_date : Int
  archive_date : Int
  archived_reason : Option String
deriving Repr, DecidableEq

/-- Row of the `archived_truckers` table (`models.ArchivedTrucker`). -/
structure ArchivedTrucker where
  original_id : Nat
  first_name : String
  last_name : String
  email : Option String
  phone_number : String
  driver_license_number : String
  province_of_issue : String
  truck_id_number : Option String
  company_name : Option String
  is_active : Bool
  registration_date : Int
  archive_date : Int
  archived_reason : Option String
deriving Repr, DecidableEq

/-- Row of the `archived_documents` table (`models.ArchivedDocument`). -/
structure ArchivedDocument where
  original_id : Nat
  document_type : String
  file_path : String
  upload_date : Int
  is_verified : Bool
  verification_date : Option Int
  verified_by : Option String
  employee_id : Option Nat
  trucker_id : Option Nat
  archive_date : Int
  archived_reason : Option String
deriving Repr, DecidableEq

/-- The whole relational store: active tables plus archive tables. -/
structure DB where
  employees : List Employee
  truckers : List Trucker
  documents : List Document
  archivedEmployees : List ArchivedEmployee
  archivedTruckers : List ArchivedTrucker
  archivedDocuments : List ArchivedDocument
deriving Repr, DecidableEq

/-- The empty store. -/
def emptyDB : DB := ⟨[], [], [], [], [], []⟩

/-- Next autoincrement id: one more than the largest id currently in the
table (SQLite rowid assignment), `1` on an empty table. -/
def nextId (ids : List Nat) : Nat := ids.foldr max 0 + 1

/-- Python truthiness of an optional integer: `None` and `0` are falsy. -/
def truthyNat : Option Nat → Bool
  | none => false
  | some n => n != 0

/-- Python truthiness of an optional string: `None` and `""` are falsy. -/
def truthyStr : Option String → Bool
  | none => false
  | some s => !s.isEmpty

/-! ## Request schemas (`schemas.py`) -/

/-- `schemas.EmployeeCreate`. -/
structure EmployeeCreate where
  first_name : String
  last_name : String
  phone_number : String
  email : String
  position : String
deriving Repr, DecidableEq

/-- `schemas.EmployeeUpdate`: every field optional; `none` means the field is
absent from the partial update. -/
structure EmployeeUpdate where
  first_name : Option String := none
  last_name : Option String := none
  email : Option String := none
  phone_number : Option String := none
  position : Option String := none
  is_active : Option Bool := none
deriving Repr, DecidableEq

/-- `schemas.TruckerCreate`. -/
structure TruckerCreate where
  first_name : String
  last_name : String
  phone_number : String
  email : Option String
  driver_license_number : String
  province_of_issue : String
  truck_id_number : Option String
  company_name : Option String
deriving Repr, DecidableEq

/-- `schemas.TruckerUpdate`. -/
structure TruckerUpdate where
  first_name : Option String := none
  last_name : Option String := none
  email : Option String := none
  phone_number : Option String := none
  driver_license_number : Option String := none
  province_of_issue : Option String := none
  truck_id_number : Option String := none
  company_name : Option String := none
  is_active : Option Bool := none
deriving Repr, DecidableEq

/-- `schemas.DocumentCreate`. -/
structure DocumentCreate where
  document_type : String
  file_path : String
  employee_id : Option Nat := none
  trucker_id : Option Nat := none
deriving Repr, DecidableEq

/-- The check performed by `DocumentCreate.model_post_init`: the input is
rejected when both of `employee_id`/`trucker_id` are set or neither is. -/
def documentCreateXorOk (inp : DocumentCreate) : Bool :=
  !((inp.employee_id.isSome && inp.trucker_id.isSome) ||
    (inp.employee_id.isNone && inp.trucker_id.isNone))

/-- `schemas.DocumentUpdate`: note that `verification_date` is not an
updatable field. -/
structure DocumentUpdate where
  document_type : Option String := none
  file_path : Option String := none
  is_verified : Option Bool := none
  verified_by : Option String := none
deriving Repr, DecidableEq

/-! ## Employee endpoints (`main.py`) -/

/-- `POST /employees/` (`register_employee`): reject a duplicate email with
the endpoint's explicit 400 check, otherwise insert a row with the next id,
`is_active = True` and `registration_date = today` (model defaults). -/
def register_employee (today : Int) (db : DB) (inp : EmployeeCreate) :
    DB × Except Err Employee :=
  if db.employees.any (fun e => e.email == inp.email) then
    (db, .error .conflict)
  else
    let e : Employee :=
      { id := nextId (db.employees.map (·.id))
        first_name := inp.first_name
        last_name := inp.last_name
        email := inp.email
        phone_number := some inp.phone_number
        position := inp.position
        is_active := true
        registration_date := today }
    ({ db with employees := db.employees ++ [e] }, .ok e)

/-- `GET /employees/` (`get_employees`): a page of the active table in
insertion order. -/
def get_employees (db : DB) (skip limit : Nat) : List Employee :=
  (db.employees.drop skip).take limit

/-- `GET /employees/{id}` (`get_employee`). -/
def get_employee (db : DB) (i : Nat) : Except Err Employee :=
  match db.employees.find? (fun e => e.id == i) with
  | none => .error .notFound
  | some e => .ok e

/-- Replace the first element satisfying `p` by its image under `f` (the ORM
mutates the single row returned by `.first()`). -/
def updateFirst (p : α → Bool) (f : α → α) : List α → List α
  | [] => []
  | a :: as => if p a then f a :: as else a :: updateFirst p f as

/-- Field-by-field application of a partial employee update
(`setattr` over `model_dump(exclude_unset=True)`). -/
def applyEmployeeUpdate (u : EmployeeUpdate) (e : Employee) : Employee :=
  { e with
    first_name := u.first_name.getD e.first_name
    last_name := u.last_name.getD e.last_name
    email := u.email.getD e.email
    phone_number := match u.phone_number with
      | some s => some s
      | none => e.phone_number
    position := u.position.getD e.position
    is_active := u.is_active.getD e.is_active }

/-- `PUT /employees/{id}` (`update_employee`). -/
def update_employee (db : DB) (i : Nat) (u : EmployeeUpdate) :
    DB × Except Err Employee :=
  match db.employees.find? (fun e => e.id == i) with
  | none => (db, .error .notFound)
  | some e =>
    let e' := applyEmployeeUpdate u e
    ({ db with
        employees := updateFirst (fun x => x.id == i) (applyEmployeeUpdate u)
          db.employees },
     .ok e')

/-- Archive snapshot taken by the employee delete endpoint and by the sweep;
`archive_date` defaults to today. -/
def snapEmployee (today : Int) (reason : String) (e : Employee) :
    ArchivedEmployee :=
  { original_id := e.id
    first_name := e.first_name
    last_name := e.last_name
    email := e.email
    phone_number := e.phone_number
    position := e.position
    is_active := e.is_active
    registration_date := e.registration_date
    archive_date := today
    archived_reason := some reason }

/-- `DELETE /employees/{id}` (`delete_employee`): snapshot into the archive,
delete the employee's documents and the employee row, in one transaction.
The insert violates the unique constraint on `original_id` when a snapshot
for this id already exists; the transaction then rolls back, leaving the
store unchanged. -/
def delete_employee (today : Int) (db : DB) (i : Nat) : DB × Except Err Unit :=
  match db.employees.find? (fun e => e.id == i) with
  | none => (db, .error .notFound)
  | some e =>
    if db.archivedEmployees.any (fun a => a.original_id == e.id) then
      (db, .error .uniqueViolation)
    else
      ({ db with
          employees := db.employees.filter (fun x => x.id != i)
          documents := db.documents.filter (fun d => d.employee_id != some i)
          archivedEmployees := db.archivedEmployees ++
            [snapEmployee today "Manual deletion from active records." e] },
       .ok ())

/-! ## Trucker endpoints (`main.py`) -/

/-- Whether the input's (non-null) email collides with an existing trucker's
email: this is the `truckers.email` unique constraint checked at commit. -/
def truckerEmailDup (db : DB) (inp : TruckerCreate) : Bool :=
  match inp.email with
  | some s => db.truckers.any (fun t => t.email == some s)
  | none => false

/-- Whether the input's (non-null) truck id collides with an existing
trucker's: the `truckers.truck_id_number` unique constraint at commit. -/
def truckerTruckIdDup (db : DB) (inp : TruckerCreate) : Bool :=
  match inp.truck_id_number with
  | some s => db.truckers.any (fun t => t.truck_id_number == some s)
  | none => false

/-- `POST /truckers/` (`register_trucker`): the endpoint explicitly rejects a
duplicate `driver_license_number` and (when the input value is truthy) a
duplicate `truck_id_number` with 400; there is no explicit email check, but
the `truckers.email` unique constraint fires at commit for a duplicate
non-null email (and, for inputs that slip past the truthiness test, for a
duplicate `truck_id_number`), rolling the transaction back. -/
def register_trucker (today : Int) (db : DB) (inp : TruckerCreate) :
    DB × Except Err Trucker :=
  if db.truckers.any (fun t => t.driver_license_number == inp.driver_license_number) then
    (db, .error .conflict)
  else if truthyStr inp.truck_id_number &&
      db.truckers.any (fun t => t.truck_id_number == inp.truck_id_number) then
    (db, .error .conflict)
  else if truckerEmailDup db inp then
    (db, .error .uniqueViolation)
  else if truckerTruckIdDup db inp then
    (db, .error .uniqueViolation)
  else
    let t : Trucker :=
      { id := nextId (db.truckers.map (·.id))
        first_name := inp.first_name
        last_name := inp.last_name
        email := inp.email
        phone_number := inp.phone_number
        driver_license_number := inp.driver_license_number
        province_of_issue := inp.province_of_issue
        truck_id_number := inp.truck_id_number
        company_name := inp.company_name
        is_active := true
        registration_date := today }
    ({ db with truckers := db.truckers ++ [t] }, .ok t)

/-- `GET /truckers/` (`get_truckers`). -/
def get_truckers (db : DB) (skip limit : Nat) : List Trucker :=
  (db.truckers.drop skip).take limit

/-- `GET /truckers/{id}` (`get_trucker`). -/
def get_trucker (db : DB) (i : Nat) : Except Err Trucker :=
  match db.truckers.find? (fun t => t.id == i) with
  | none => .error .notFound
  | some t => .ok t

/-- Field-by-field application of a partial trucker update. -/
def applyTruckerUpdate (u : TruckerUpdate) (t : Trucker) : Trucker :=
  { t with
    first_name := u.first_name.getD t.first_name
    last_name := u.last_name.getD t.last_name
    email := match u.email with
      | some s => some s
      | none => t.email
    phone_number := u.phone_number.getD t.phone_number
    driver_license_number := u.driver_license_number.getD t.driver_license_number
    province_of_issue := u.province_of_issue.getD t.province_of_issue
    truck_id_number := match u.truck_id_number with
      | some s => some s
      | none => t.truck_id_number
    company_name := match u.company_name with
      | some s => some s
      | none => t.company_name
    is_active := u.is_active.getD t.is_active }

/-- `PUT /truckers/{id}` (`update_trucker`). -/
def update_trucker (db : DB) (i : Nat) (u : TruckerUpdate) :
    DB × Except Err Trucker :=
  match db.truckers.find? (fun t => t.id == i) with
  | none => (db, .error .notFound)
  | some t =>
    let t' := applyTruckerUpdate u t
    ({ db with
        truckers := updateFirst (fun x => x.id == i) (applyTruckerUpdate u)
          db.truckers },
     .ok t')

/-- Archive snapshot of a trucker. -/
def snapTrucker (today : Int) (reason : String) (t : Trucker) : ArchivedTrucker :=
  { original_id := t.id
    first_name := t.first_name
    last_name := t.last_name
    email := t.email
    phone_number := t.phone_number
    driver_license_number := t.driver_license_number
    province_of_issue := t.province_of_issue
    truck_id_number := t.truck_id_number
    company_name := t.company_name
    is_active := t.is_active
    registration_date := t.registration_date
    archive_date := today
    archived_reason := some reason }

/-- `DELETE /truckers/{id}` (`delete_trucker`). -/
def delete_trucker (today : Int) (db : DB) (i : Nat) : DB × Except Err Unit :=
  match db.truckers.find? (fun t => t.id == i) with
  | none => (db, .error .notFound)
  | some t =>
    if db.archivedTruckers.any (fun a => a.original_id == t.id) then
      (db, .error .uniqueViolation)
    else
      ({ db with
          truckers := db.truckers.filter (fun x => x.id != i)
          documents := db.documents.filter (fun d => d.trucker_id != some i)
          archivedTruckers := db.archivedTruckers ++
            [snapTrucker today "Manual deletion from active records." t] },
       .ok ())

/-! ## Document endpoints (`main.py`) -/

/-- The person lookup of `upload_document`: the branch is chosen through
Python truthiness of the ids (`if document.employee_id`), and only existence
in the active table is checked — the person's `is_active` flag is not
consulted. -/
def documentPersonFound (db : DB) (inp : DocumentCreate) : Bool :=
  if truthyNat inp.employee_id then
    db.employees.any (fun e => some e.id == inp.employee_id)
  else if truthyNat inp.trucker_id then
    db.truckers.any (fun t => some t.id == inp.trucker_id)
  else false

/-- The row inserted by `upload_document`: next id, today's upload date and
the model defaults for the verification fields. -/
def newDocument (today : Int) (db : DB) (inp : DocumentCreate) : Document :=
  { id := nextId (db.documents.map (·.id))
    document_type := inp.document_type
    file_path := inp.file_path
    upload_date := today
    is_verified := false
    verification_date := none
    verified_by := none
    employee_id := inp.employee_id
    trucker_id := inp.trucker_id }

/-- `POST /documents/` (`upload_document`): reject with `NotFound` when the
person lookup comes back empty, otherwise insert the new document row. -/
def upload_document (today : Int) (db : DB) (inp : DocumentCreate) :
    DB × Except Err Document :=
  if !documentPersonFound db inp then
    (db, .error .notFound)
  else
    ({ db with documents := db.documents ++ [newDocument today db inp] },
      .ok (newDocument today db inp))

/-- The document-creation pipeline: schema validation
(`DocumentCreate.model_post_init`) followed by the endpoint handler. -/
def create_document_endpoint (today : Int) (db : DB) (inp : DocumentCreate) :
    DB × Except Err Document :=
  if documentCreateXorOk inp then upload_document today db inp
  else (db, .error .validationError)

/-- `GET /documents/{id}` (`get_document`). -/
def get_document (db : DB) (i : Nat) : Except Err Document :=
  match db.documents.find? (fun d => d.id == i) with
  | none => .error .notFound
  | some d => .ok d

/-- Field-by-field application of a partial document update: when
`is_verified` is being set to `True` while the stored flag is `False`,
`verification_date` is stamped with today's date as a side effect. -/
def applyDocumentUpdate (today : Int) (u : DocumentUpdate) (d : Document) :
    Document :=
  { d with
    document_type := u.document_type.getD d.document_type
    file_path := u.file_path.getD d.file_path
    verification_date :=
      if u.is_verified == some true && !d.is_verified then some today
      else d.verification_date
    is_verified := u.is_verified.getD d.is_verified
    verified_by := match u.verified_by with
      | some s => some s
      | none => d.verified_by }

/-- `PUT /documents/{id}` (`update_document`). -/
def update_document (today : Int) (db : DB) (i : Nat) (u : DocumentUpdate) :
    DB × Except Err Document :=
  match db.documents.find? (fun d => d.id == i) with
  | none => (db, .error .notFound)
  | some d =>
    let d' := applyDocumentUpdate today u d
    ({ db with
        documents := updateFirst (fun x => x.id == i) (applyDocumentUpdate today u)
          db.documents },
     .ok d')

/-- Archive snapshot of a document. -/
def snapDocument (today : Int) (reason : String) (d : Document) :
    ArchivedDocument :=
  { original_id := d.id
    document_type := d.document_type
    file_path := d.file_path
    upload_date := d.upload_date
    is_verified := d.is_verified
    verification_date := d.verification_date
    verified_by := d.verified_by
    employee_id := d.employee_id
    trucker_id := d.trucker_id
    archive_date := today
    archived_reason := some reason }

/-- `DELETE /documents/{id}` (`delete_document`). -/
def delete_document (today : Int) (db : DB) (i : Nat) : DB × Except Err Unit :=
  match db.documents.find? (fun d => d.id == i) with
  | none => (db, .error .notFound)
  | some d =>
    if db.archivedDocuments.any (fun a => a.original_id == d.id) then
      (db, .error .uniqueViolation)
    else
      ({ db with
          documents := db.documents.filter (fun x => x.id != i)
          archivedDocuments := db.archivedDocuments ++
            [snapDocument today "Manual deletion from active records." d] },
       .ok ())

/-! ## Batch archival (`manual_archive_trigger` in `main.py`)

The sweep runs in a single session with `autoflush=False`: the three
selection queries and all idempotency-guard queries see the store as it was
when the request began, and every pending insert and delete is applied at the
single `db.commit()` at the end.  Deleting an employee or trucker cascades
(`cascade="all, delete-orphan"` on the `documents` relationship) to that
person's documents, which are removed from the active table at commit even
when their own age predicate did not select them. -/

/-- Per-entity counts returned by the sweep (`schemas.ArchiveSummary`). -/
structure ArchiveSummary where
  archived_employees : Nat
  archived_truckers : Nat
  archived_documents : Nat
deriving Repr, DecidableEq

/-- `POST /archive/manual_trigger?days_old=N` (`manual_archive_trigger`). -/
def manual_archive_trigger (today : Int) (days_old : Nat) (db : DB) :
    DB × ArchiveSummary :=
  let cutoff : Int := today - (days_old : Int)
  let selE := db.employees.filter
    (fun e => !e.is_active || decide (e.registration_date < cutoff))
  let archE := selE.filter
    (fun e => !db.archivedEmployees.any (fun a => a.original_id == e.id))
  let selT := db.truckers.filter
    (fun t => !t.is_active || decide (t.registration_date < cutoff))
  let archT := selT.filter
    (fun t => !db.archivedTruckers.any (fun a => a.original_id == t.id))
  let selD := db.documents.filter (fun d => decide (d.upload_date < cutoff))
  let archD := selD.filter
    (fun d => !db.archivedDocuments.any (fun a => a.original_id == d.id))
  let deadE := archE.map (·.id)
  let deadT := archT.map (·.id)
  let deadD := archD.map (·.id)
  let reasonPerson := "Automated archive: inactive or older than " ++
    toString days_old ++ " days."
  let reasonDoc := "Automated archive: uploaded more than " ++
    toString days_old ++ " days ago."
  ({ db with
      employees := db.employees.filter (fun e => !deadE.contains e.id)
      truckers := db.truckers.filter (fun t => !deadT.contains t.id)
      documents := db.documents.filter (fun d =>
        !deadD.contains d.id &&
        !(match d.employee_id with
          | some j => deadE.contains j
          | none => false) &&
        !(match d.trucker_id with
          | some j => deadT.contains j
          | none => false))
      archivedEmployees := db.archivedEmployees ++
        archE.map (snapEmployee today reasonPerson)
      archivedTruckers := db.archivedTruckers ++
        archT.map (snapTrucker today reasonPerson)
      archivedDocuments := db.archivedDocuments ++
        archD.map (snapDocument today reasonDoc) },
   ⟨archE.length, archT.length, archD.length⟩)

/-! ## Live search (`live_search` in `main.py`) -/

/-- One entry of the `/search/` response (`schemas.LiveSearchResult`); the
`details` payload is represented by the discriminating fields the claims
need. -/
structure SearchResult where
  rtype : String
  id : Nat
  name : String
  identifier : String
  is_active : Bool
deriving Repr, DecidableEq

/-- Search result built from an employee row. -/
def empResult (e : Employee) : SearchResult :=
  ⟨"employee", e.id, e.first_name ++ " " ++ e.last_name, e.email, e.is_active⟩

/-- Search result built from a trucker row. -/
def truckResult (t : Trucker) : SearchResult :=
  ⟨"trucker", t.id, t.first_name ++ " " ++ t.last_name,
    t.driver_license_number, t.is_active⟩

/-- Whether `needle` is a prefix of `haystack` (over character lists). -/
def startsWithChars : List Char → List Char → Bool
  | [], _ => true
  | _ :: _, [] => false
  | a :: as, b :: bs => a == b && startsWithChars as bs

/-- Whether `needle` occurs as a contiguous sublist of `haystack`. -/
def charsContain (needle : List Char) : List Char → Bool
  | [] => needle.isEmpty
  | c :: cs => startsWithChars needle (c :: cs) || charsContain needle cs

/-- SQL `ilike '%query%'`: case-insensitive substring match on a non-null
column. -/
def ilikeSub (query field : String) : Bool :=
  charsContain (query.toLower.toList) (field.toLower.toList)

/-- SQL `ilike '%query%'` on a nullable column: `NULL` never matches. -/
def ilikeSubOpt (query : String) : Option String → Bool
  | none => false
  | some s => ilikeSub query s

/-- The employee string filter of `live_search`: first name, last name or
email. -/
def employeeMatches (query : String) (e : Employee) : Bool :=
  ilikeSub query e.first_name || ilikeSub query e.last_name ||
    ilikeSub query e.email

/-- The trucker string filter of `live_search`: name, email, licence, truck
id or company. -/
def truckerMatches (query : String) (t : Trucker) : Bool :=
  ilikeSub query t.first_name || ilikeSub query t.last_name ||
    ilikeSubOpt query t.email || ilikeSub query t.driver_license_number ||
    ilikeSubOpt query t.truck_id_number || ilikeSubOpt query t.company_name

/-- Append `r` unless a result with the same `(type, id)` is already present
(the de-duplication check of `live_search`). -/
def dedupAppend (acc : List SearchResult) (r : SearchResult) :
    List SearchResult :=
  if acc.any (fun x => x.id == r.id && x.rtype == r.rtype) then acc
  else acc ++ [r]

/-- Auxiliary decimal-digit accumulator for `parseIntStr`. -/
def parseDigits : List Char → Nat → Option Nat
  | [], acc => some acc
  | c :: cs, acc =>
    if c.isDigit then parseDigits cs (acc * 10 + (c.toNat - '0'.toNat)) else none

/-- Python's `int(query)` as used by the search endpoint: an optional minus
sign followed by decimal digits; anything else raises `ValueError`, modelled
as `none`. -/
def parseIntStr (s : String) : Option Int :=
  match s.toList with
  | [] => none
  | '-' :: cs =>
    if cs.isEmpty then none else (parseDigits cs 0).map (fun n => -(n : Int))
  | cs => (parseDigits cs 0).map (fun n => (n : Int))

/-- The exact-id pass of `live_search`: when the query parses as an integer,
look the id up in both tables. -/
def searchIdPass (db : DB) (query : String) : List SearchResult :=
  match parseIntStr query with
  | some n =>
      (match db.employees.find? (fun e => (e.id : Int) == n) with
       | some e => [empResult e]
       | none => []) ++
      (match db.truckers.find? (fun t => (t.id : Int) == n) with
       | some t => [truckResult t]
       | none => [])
  | none => []

/-- `GET /search/?query=...` (`live_search`): the exact-id pass runs first,
then the case-insensitive substring passes over employees and truckers,
de-duplicated by `(type, id)` against what is already in the result list. -/
def live_search (db : DB) (query : String) : List SearchResult :=
  let withEmployees :=
    (db.employees.filter (employeeMatches query)).foldl
      (fun acc e => dedupAppend acc (empResult e)) (searchIdPass db query)
  (db.truckers.filter (truckerMatches query)).foldl
    (fun acc t => dedupAppend acc (truckResult t)) withEmployees

/-! ## Analytics (`main.py`)

Calendar months are recovered from day numbers with the standard
civil-from-days conversion (proleptic Gregorian calendar), as
`pandas.to_datetime` does for real dates; day `0` is 1970-01-01. -/

/-- Year and month (1..12) of a day number. -/
def civilYM (z : Int) : Int × Int :=
  let z' := z + 719468
  let era := Int.fdiv z' 146097
  let doe := z' - era * 146097
  let yoe := (doe - doe / 1460 + doe / 36524 - doe / 146096) / 365
  let y := yoe + era * 400
  let doy := doe - (365 * yoe + yoe / 4 - yoe / 100)
  let mp := (5 * doy + 2) / 153
  let m := if mp < 10 then mp + 3 else mp - 9
  (if m ≤ 2 then y + 1 else y, m)

/-- Linear month index (year times 12 plus month) of a day number; two day
numbers fall in the same calendar month exactly when their keys agree, and
consecutive months have consecutive keys. -/
def monthKey (z : Int) : Int :=
  let ym := civilYM z
  ym.1 * 12 + (ym.2 - 1)

/-- The `resample('M').size()` series: one count per calendar month from the
earliest to the latest date present, months with no dates counted as 0; the
empty series for an empty table. -/
def monthlyCounts (dates : List Int) : List Nat :=
  let keys := dates.map monthKey
  match keys.min?, keys.max? with
  | some lo, some hi =>
      (List.range (hi - lo + 1).toNat).map
        (fun i => (keys.filter (fun k => k == lo + (i : Int))).length)
  | _, _ => []

/-- Ordinary-least-squares prediction of the count for the month right after
the observed series (month indices 0, 1, ...; evaluated at index `n`), in
exact arithmetic. -/
def olsPredictNext (counts : List Nat) : ℚ :=
  let n : ℚ := (counts.length : ℚ)
  let xs : List ℚ := (List.range counts.length).map (fun i => (i : ℚ))
  let ys : List ℚ := counts.map (fun c => (c : ℚ))
  let sx := xs.sum
  let sy := ys.sum
  let sxy := ((xs.zip ys).map (fun p => p.1 * p.2)).sum
  let sxx := (xs.map (fun x => x * x)).sum
  let slope := (n * sxy - sx * sy) / (n * sxx - sx * sx)
  let intercept := (sy - slope * sx) / n
  intercept + slope * n

/-- Response of `/analytics/employee-growth` (`schemas.EmployeeGrowthAnalysis`,
with the monthly series carried as its list of counts). -/
structure EmployeeGrowthAnalysis where
  monthly_counts : List Nat
  total_employees : Nat
  average_monthly_growth : ℚ
  projected_next_month : Option Nat
deriving Repr, DecidableEq

/-- `GET /analytics/employee-growth` (`get_employee_growth`): monthly counts
over all employees' registration dates (no `is_active` filter), their
arithmetic mean, and — when at least two monthly data points exist — the
least-squares projection for the next month, clamped to zero and truncated
to an integer. -/
def get_employee_growth (db : DB) : EmployeeGrowthAnalysis :=
  let counts := monthlyCounts (db.employees.map (·.registration_date))
  { monthly_counts := counts
    total_employees := db.employees.length
    average_monthly_growth :=
      if counts.length > 0 then (counts.sum : ℚ) / (counts.length : ℚ) else 0
    projected_next_month :=
      if counts.length ≥ 2 then
        some (max 0 (olsPredictNext counts)).floor.toNat
      else none }

/-- Python's `round(x, 2)` idealised on rationals: round half to even at two
decimal places. -/
def roundHalfEven (q : ℚ) : ℤ :=
  let f := Int.floor q
  let r := q - (f : ℚ)
  if r < 1 / 2 then f
  else if 1 / 2 < r then f + 1
  else if Even f then f else f + 1

/-- Rounding to two decimal places, half to even. -/
def round2 (q : ℚ) : ℚ := ((roundHalfEven (q * 100) : ℚ)) / 100

/-- Response of `/analytics/business-impact`
(`schemas.BusinessImpactAnalysis`, numeric fields only). -/
structure BusinessImpactAnalysis where
  employee_churn_rate : ℚ
  trucker_churn_rate : ℚ
  document_compliance_rate : ℚ
deriving Repr, DecidableEq

/-- `GET /analytics/business-impact` (`get_business_impact`): churn per
entity type is the archived row count over the sum of active-table and
archive-table row counts, times 100, zero on an empty denominator, rounded
to two decimals for the response. -/
def get_business_impact (db : DB) : BusinessImpactAnalysis :=
  let totalE : Nat := db.employees.length + db.archivedEmployees.length
  let deacE : Nat := db.archivedEmployees.length
  let totalT : Nat := db.truckers.length + db.archivedTruckers.length
  let deacT : Nat := db.archivedTruckers.length
  let totalD : Nat := db.documents.length
  let verD : Nat := (db.documents.filter (fun d => d.is_verified)).length
  { employee_churn_rate :=
      round2 (if totalE > 0 then (deacE : ℚ) / (totalE : ℚ) * 100 else 0)
    trucker_churn_rate :=
      round2 (if totalT > 0 then (deacT : ℚ) / (totalT : ℚ) * 100 else 0)
    document_compliance_rate :=
      round2 (if totalD > 0 then (verD : ℚ) / (totalD : ℚ) * 100 else 0) }

/-! ## Store invariants and reachability -/

/-- Primary-key and unique-constraint discipline of the store: ids are
pairwise distinct within each active table, and `original_id` is pairwise
distinct within each archive table (the at-most-once-archival invariant). -/
def Inv (db : DB) : Prop :=
  (db.employees.map (·.id)).Nodup ∧
  (db.truckers.map (·.id)).Nodup ∧
  (db.documents.map (·.id)).Nodup ∧
  (db.archivedEmployees.map (·.original_id)).Nodup ∧
  (db.archivedTruckers.map (·.original_id)).Nodup ∧
  (db.archivedDocuments.map (·.original_id)).Nodup

/-- Every persisted document references exactly one person: one of
`employee_id`/`trucker_id` is set and the other is null. -/
def DocXor (db : DB) : Prop :=
  ∀ d ∈ db.documents,
    (d.employee_id ≠ none ∧ d.trucker_id = none) ∨
    (d.employee_id = none ∧ d.trucker_id ≠ none)

/-- The combined invariant carried through every operation. -/
def Good (db : DB) : Prop := Inv db ∧ DocXor db

/-- States reachable from the empty store through the service's write
operations, each invoked with arbitrary request data and at an arbitrary
date. -/
inductive Reachable : DB → Prop where
  | init : Reachable emptyDB
  | register_employee_step (t : Int) (db : DB) (inp : EmployeeCreate) :
      Reachable db → Reachable (register_employee t db inp).1
  | update_employee_step (db : DB) (i : Nat) (u : EmployeeUpdate) :
      Reachable db → Reachable (update_employee db i u).1
  | delete_employee_step (t : Int) (db : DB) (i : Nat) :
      Reachable db → Reachable (delete_employee t db i).1
  | register_trucker_step (t : Int) (db : DB) (inp : TruckerCreate) :
      Reachable db → Reachable (register_trucker t db inp).1
  | update_trucker_step (db : DB) (i : Nat) (u : TruckerUpdate) :
      Reachable db → Reachable (update_trucker db i u).1
  | delete_trucker_step (t : Int) (db : DB) (i : Nat) :
      Reachable db → Reachable (delete_trucker t db i).1
  | create_document_step (t : Int) (db : DB) (inp : DocumentCreate) :
      Reachable db → Reachable (create_document_endpoint t db inp).1
  | update_document_step (t : Int) (db : DB) (i : Nat) (u : DocumentUpdate) :
      Reachable db → Reachable (update_document t db i u).1
  | delete_document_step (t : Int) (db : DB) (i : Nat) :
      Reachable db → Reachable (delete_document t db i).1
  | sweep_step (t : Int) (n : Nat) (db : DB) :
      Reachable db → Reachable (manual_archive_trigger t n db).1

/-- Churn rate exactly as the specification words it: archived count over
the sum of active and archived counts, times 100, and 0 when the denominator
is 0. -/
def specChurnRate (archived active : Nat) : ℚ :=
  if active + archived > 0 then
    (archived : ℚ) / ((active : ℚ) + (archived : ℚ)) * 100
  else 0

/-! ## Concrete example stores used by witnesses and counterexamples -/

/-- A sample employee row. -/
def exEmployee (i : Nat) (activeFlag : Bool) (reg : Int) : Employee :=
  { id := i
    first_name := "Jane"
    last_name := "Doe"
    email := "jane" ++ toString i ++ "@x.com"
    phone_number := some "4165550000"
    position := "Packer"
    is_active := activeFlag
    registration_date := reg }

/-- A sample trucker row. -/
def exTrucker (i : Nat) (activeFlag : Bool) (reg : Int) : Trucker :=
  { id := i
    first_name := "Max"
    last_name := "Road"
    email := some ("max" ++ toString i ++ "@t.com")
    phone_number := "4165551111"
    driver_license_number := "LIC" ++ toString i
    province_of_issue := "ON"
    truck_id_number := some ("TRK" ++ toString i)
    company_name := none
    is_active := activeFlag
    registration_date := reg }

/-- A sample document row owned by a trucker. -/
def exDocumentT (i : Nat) (owner : Nat) (uploaded : Int) : Document :=
  { id := i
    document_type := "Insurance"
    file_path := "/files/d" ++ toString i ++ ".pdf"
    upload_date := uploaded
    is_verified := false
    verification_date := none
    verified_by := none
    employee_id := none
    trucker_id := some owner }

/-- A sample document row owned by an employee. -/
def exDocumentE (i : Nat) (owner : Nat) (uploaded : Int) : Document :=
  { exDocumentT i owner uploaded with employee_id := some owner, trucker_id := none }

/-- A store exercising the `days_old = 0` sweep on day 100: an inactive
employee whose id already sits in the employee archive, an active trucker
registered today, and a document uploaded today owned by that trucker. -/
def exC3db : DB :=
  { employees := [exEmployee 1 false 100]
    truckers := [exTrucker 1 true 100]
    documents := [exDocumentT 1 1 100]
    archivedEmployees := [
      { original_id := 1
        first_name := "Jane"
        last_name := "Doe"
        email := "jane1@x.com"
        phone_number := none
        position := "Packer"
        is_active := false
        registration_date := 40
        archive_date := 50
        archived_reason := some "Manual deletion from active records." }]
    archivedTruckers := []
    archivedDocuments := [] }

/-- A store for exercising the amended `days_old = 0` sweep on day 100: an
inactive employee not yet archived, an active trucker registered today, a
document uploaded today and an old document from day 50, both owned by the
trucker. -/
def exC3w : DB :=
  { employees := [exEmployee 1 false 100]
    truckers := [exTrucker 1 true 100]
    documents := [exDocumentT 1 1 100, exDocumentT 2 1 50]
    archivedEmployees := []
    archivedTruckers := []
    archivedDocuments := [] }

/-- Twelve active employees registering with monthly counts 2, 4, 6 over
January, February and March 1970 (day numbers 0..64). -/
def exC8actives : List Employee :=
  [exEmployee 1 true 0, exEmployee 2 true 1,
   exEmployee 3 true 31, exEmployee 4 true 32, exEmployee 5 true 33,
   exEmployee 6 true 34,
   exEmployee 7 true 59, exEmployee 8 true 60, exEmployee 9 true 61,
   exEmployee 10 true 62, exEmployee 11 true 63, exEmployee 12 true 64]

/-- A store whose active employees follow the 2, 4, 6 pattern but which also
holds one inactive employee registered in the first month. -/
def exC8bad : DB :=
  { employees := exC8actives ++ [exEmployee 13 false 2]
    truckers := []
    documents := []
    archivedEmployees := []
    archivedTruckers := []
    archivedDocuments := [] }

/-- A store whose employees follow exactly the 2, 4, 6 monthly pattern. -/
def exC8good : DB :=
  { employees := exC8actives
    truckers := []
    documents := []
    archivedEmployees := []
    archivedTruckers := []
    archivedDocuments := [] }

/-- A store with two active-table employees and one archived employee, so the
exact employee churn rate 100/3 has more than two decimal places. -/
def exC9db : DB :=
  { employees := [exEmployee 1 true 0, exEmployee 2 true 0]
    truckers := []
    documents := []
    archivedEmployees := [snapEmployee 50 "old" (exEmployee 9 false 40)]
    archivedTruckers := []
    archivedDocuments := [] }

/-- Result values are comparable, so concrete runs can be checked by
`decide`. -/
instance {ε α : Type} [DecidableEq ε] [DecidableEq α] :
    DecidableEq (Except ε α) := fun x y =>
  match x, y with
  | .ok a, .ok b =>
    if h : a = b then isTrue (by rw [h])
    else isFalse (by intro hh; cases hh; exact h rfl)
  | .ok _, .error _ => isFalse (by intro hh; cases hh)
  | .error _, .ok _ => isFalse (by intro hh; cases hh)
  | .error e, .error f =>
    if h : e = f then isTrue (by rw [h])
    else isFalse (by intro hh; cases hh; exact h rfl)

/-! ## Helper lemmas -/

theorem le_foldr_max {x : Nat} {l : List Nat} (h : x ∈ l) :
    x ≤ l.foldr max 0 := by
  induction l with
  | nil => cases h
  | cons a as ih =>
    rcases List.mem_cons.mp h with rfl | hm
    · exact Nat.le_max_left _ _
    · exact Nat.le_trans (ih hm) (Nat.le_max_right _ _)

theorem nextId_not_mem (l : List Nat) : nextId l ∉ l := by
  intro h
  have := le_foldr_max h
  simp only [nextId] at this
  omega

theorem map_updateFirst {α β : Type} (p : α → Bool) (f : α → α) (g : α → β)
    (hg : ∀ x, g (f x) = g x) (l : List α) :
    (updateFirst p f l).map g = l.map g := by
  induction l with
  | nil => rfl
  | cons a as ih =>
    by_cases h : p a
    · simp [updateFirst, h, hg]
    · simp [updateFirst, h, ih]

theorem mem_updateFirst {α : Type} {p : α → Bool} {f : α → α} {l : List α}
    {x : α} (h : x ∈ updateFirst p f l) : x ∈ l ∨ ∃ y ∈ l, x = f y := by
  induction l with
  | nil => cases h
  | cons a as ih =>
    by_cases hp : p a
    · simp only [updateFirst, hp, if_true, List.mem_cons] at h
      rcases h with h1 | h1
      · exact Or.inr ⟨a, List.mem_cons_self a as, h1⟩
      · exact Or.inl (List.mem_cons_of_mem _ h1)
    · simp only [updateFirst, hp, Bool.false_eq_true, if_false, List.mem_cons] at h
      rcases h with h1 | h1
      · exact Or.inl (List.mem_cons.mpr (Or.inl h1))
      · rcases ih h1 with h2 | ⟨y, hy, h2⟩
        · exact Or.inl (List.mem_cons_of_mem _ h2)
        · exact Or.inr ⟨y, List.mem_cons_of_mem _ hy, h2⟩

theorem find?_updateFirst {α : Type} {p : α → Bool} {f : α → α} {l : List α}
    {a : α} (h : l.find? p = some a) (hf : p (f a) = true) :
    (updateFirst p f l).find? p = some (f a) := by
  induction l with
  | nil => simp at h
  | cons b bs ih =>
    by_cases hp : p b
    · rw [List.find?_cons_of_pos _ hp] at h
      injection h with h
      subst h
      simp [updateFirst, hp, List.find?_cons_of_pos _ hf]
    · rw [List.find?_cons_of_neg _ hp] at h
      simp [updateFirst, hp, List.find?_cons_of_neg _ hp, ih h]

theorem nodup_map_filter {α β : Type} (g : α → β) (p : α → Bool) {l : List α}
    (h : (l.map g).Nodup) : ((l.filter p).map g).Nodup :=
  List.Nodup.sublist (List.Sublist.map g (List.filter_sublist l)) h

theorem nodup_append_block {α : Type} {l r : List α} (h : l.Nodup)
    (hr : r.Nodup) (hd : ∀ x ∈ r, x ∉ l) : (l ++ r).Nodup := by
  rw [List.nodup_append]
  exact ⟨h, hr, fun x hx hx' => hd x hx' hx⟩

theorem nodup_append_singleton {α : Type} {l : List α} {x : α}
    (h : l.Nodup) (hx : x ∉ l) : (l ++ [x]).Nodup :=
  nodup_append_block h (List.nodup_singleton x)
    (fun y hy => by rcases List.mem_singleton.mp hy with rfl; exact hx)

theorem register_employee_good (t : Int) (db : DB) (inp : EmployeeCreate)
    (h : Good db) : Good (register_employee t db inp).1 := by
  obtain ⟨⟨h1, h2, h3, h4, h5, h6⟩, hx⟩ := h
  by_cases hc : db.employees.any (fun e => e.email == inp.email)
  · simpa [register_employee, hc] using ⟨⟨h1, h2, h3, h4, h5, h6⟩, hx⟩
  · simp only [register_employee, hc, Bool.false_eq_true, if_false]
    refine ⟨⟨?_, h2, h3, h4, h5, h6⟩, hx⟩
    simpa using
      nodup_append_singleton h1 (nextId_not_mem (db.employees.map (fun x => x.id)))

theorem update_employee_good (db : DB) (i : Nat) (u : EmployeeUpdate)
    (h : Good db) : Good (update_employee db i u).1 := by
  obtain ⟨⟨h1, h2, h3, h4, h5, h6⟩, hx⟩ := h
  rcases hfind : db.employees.find? (fun e => e.id == i) with _ | e
  · simpa [update_employee, hfind] using ⟨⟨h1, h2, h3, h4, h5, h6⟩, hx⟩
  · simp only [update_employee, hfind]
    refine ⟨⟨?_, h2, h3, h4, h5, h6⟩, hx⟩
    have hmap := map_updateFirst (fun e : Employee => e.id == i)
      (applyEmployeeUpdate u) (fun x : Employee => x.id) (fun x => rfl) db.employees
    simpa [hmap] using h1

theorem delete_employee_good (t : Int) (db : DB) (i : Nat)
    (h : Good db) : Good (delete_employee t db i).1 := by
  obtain ⟨⟨h1, h2, h3, h4, h5, h6⟩, hx⟩ := h
  rcases hfind : db.employees.find? (fun e => e.id == i) with _ | e
  · simpa [delete_employee, hfind] using ⟨⟨h1, h2, h3, h4, h5, h6⟩, hx⟩
  · by_cases hg : db.archivedEmployees.any (fun a => a.original_id == e.id)
    · simpa [delete_employee, hfind, hg] using ⟨⟨h1, h2, h3, h4, h5, h6⟩, hx⟩
    · simp only [delete_employee, hfind, hg, Bool.false_eq_true, if_false]
      have hnotmem : e.id ∉ db.archivedEmployees.map (fun a => a.original_id) := by
        intro hm
        rcases List.mem_map.mp hm with ⟨a, ha, haid⟩
        exact hg (List.any_eq_true.mpr ⟨a, ha, by simp [haid]⟩)
      refine ⟨⟨nodup_map_filter _ _ h1, h2, nodup_map_filter _ _ h3, ?_, h5, h6⟩, ?_⟩
      · simpa [snapEmployee] using nodup_append_singleton h4 hnotmem
      · intro d hd
        exact hx d (List.mem_filter.mp hd).1

theorem register_trucker_good (t : Int) (db : DB) (inp : TruckerCreate)
    (h : Good db) : Good (register_trucker t db inp).1 := by
  obtain ⟨⟨h1, h2, h3, h4, h5, h6⟩, hx⟩ := h
  by_cases hc1 : db.truckers.any
      (fun x => x.driver_license_number == inp.driver_license_number)
  · simpa [register_trucker, hc1] using ⟨⟨h1, h2, h3, h4, h5, h6⟩, hx⟩
  by_cases hc2 : (truthyStr inp.truck_id_number &&
      db.truckers.any (fun x => x.truck_id_number == inp.truck_id_number)) = true
  · simpa [register_trucker, hc1, hc2] using ⟨⟨h1, h2, h3, h4, h5, h6⟩, hx⟩
  by_cases hc3 : truckerEmailDup db inp
  · simpa [register_trucker, hc1, hc2, hc3] using ⟨⟨h1, h2, h3, h4, h5, h6⟩, hx⟩
  by_cases hc4 : truckerTruckIdDup db inp
  · simpa [register_trucker, hc1, hc2, hc3, hc4] using
      ⟨⟨h1, h2, h3, h4, h5, h6⟩, hx⟩
  simp only [register_trucker, hc1, hc2, hc3, hc4, Bool.false_eq_true, if_false]
  refine ⟨⟨h1, ?_, h3, h4, h5, h6⟩, hx⟩
  simpa using
    nodup_append_singleton h2 (nextId_not_mem (db.truckers.map (fun x => x.id)))

theorem update_trucker_good (db : DB) (i : Nat) (u : TruckerUpdate)
    (h : Good db) : Good (update_trucker db i u).1 := by
  obtain ⟨⟨h1, h2, h3, h4, h5, h6⟩, hx⟩ := h
  rcases hfind : db.truckers.find? (fun t => t.id == i) with _ | t
  · simpa [update_trucker, hfind] using ⟨⟨h1, h2, h3, h4, h5, h6⟩, hx⟩
  · simp only [update_trucker, hfind]
    refine ⟨⟨h1, ?_, h3, h4, h5, h6⟩, hx⟩
    have hmap := map_updateFirst (fun x : Trucker => x.id == i)
      (applyTruckerUpdate u) (fun x : Trucker => x.id) (fun x => rfl) db.truckers
    simpa [hmap] using h2

theorem delete_trucker_good (t : Int) (db : DB) (i : Nat)
    (h : Good db) : Good (delete_trucker t db i).1 := by
  obtain ⟨⟨h1, h2, h3, h4, h5, h6⟩, hx⟩ := h
  rcases hfind : db.truckers.find? (fun x => x.id == i) with _ | tk
  · simpa [delete_trucker, hfind] using ⟨⟨h1, h2, h3, h4, h5, h6⟩, hx⟩
  · by_cases hg : db.archivedTruckers.any (fun a => a.original_id == tk.id)
    · simpa [delete_trucker, hfind, hg] using ⟨⟨h1, h2, h3, h4, h5, h6⟩, hx⟩
    · simp only [delete_trucker, hfind, hg, Bool.false_eq_true, if_false]
      have hnotmem : tk.id ∉ db.archivedTruckers.map (fun a => a.original_id) := by
        intro hm
        rcases List.mem_map.mp hm with ⟨a, ha, haid⟩
        exact hg (List.any_eq_true.mpr ⟨a, ha, by simp [haid]⟩)
      refine ⟨⟨h1, nodup_map_filter _ _ h2, nodup_map_filter _ _ h3, h4, ?_, h6⟩, ?_⟩
      · simpa [snapTrucker] using nodup_append_singleton h5 hnotmem
      · intro d hd
        exact hx d (List.mem_filter.mp hd).1

theorem upload_document_good (t : Int) (db : DB) (inp : DocumentCreate)
    (hxor : documentCreateXorOk inp = true)
    (h : Good db) : Good (upload_document t db inp).1 := by
  obtain ⟨⟨h1, h2, h3, h4, h5, h6⟩, hx⟩ := h
  by_cases hf : documentPersonFound db inp
  · simp only [upload_document, hf, Bool.not_true, Bool.false_eq_true, if_false]
    refine ⟨⟨h1, h2, ?_, h4, h5, h6⟩, ?_⟩
    · simpa using
        nodup_append_singleton h3 (nextId_not_mem (db.documents.map (fun x => x.id)))
    · intro d hd
      simp only [List.mem_append, List.mem_singleton] at hd
      rcases hd with hd | hd
      · exact hx d hd
      · subst hd
        rcases hE : inp.employee_id with _ | ev <;>
          rcases hT : inp.trucker_id with _ | tv <;>
          simp_all [documentCreateXorOk, newDocument]
  · simpa [upload_document, hf] using ⟨⟨h1, h2, h3, h4, h5, h6⟩, hx⟩

theorem create_document_good (t : Int) (db : DB) (inp : DocumentCreate)
    (h : Good db) : Good (create_document_endpoint t db inp).1 := by
  by_cases hv : documentCreateXorOk inp
  · simpa [create_document_endpoint, hv] using upload_document_good t db inp hv h
  · simpa [create_document_endpoint, hv] using h

theorem update_document_good (t : Int) (db : DB) (i : Nat) (u : DocumentUpdate)
    (h : Good db) : Good (update_document t db i u).1 := by
  obtain ⟨⟨h1, h2, h3, h4, h5, h6⟩, hx⟩ := h
  rcases hfind : db.documents.find? (fun d => d.id == i) with _ | d
  · simpa [update_document, hfind] using ⟨⟨h1, h2, h3, h4, h5, h6⟩, hx⟩
  · simp only [update_document, hfind]
    have hmap := map_updateFirst (fun x : Document => x.id == i)
      (applyDocumentUpdate t u) (fun x : Document => x.id) (fun x => rfl)
      db.documents
    refine ⟨⟨h1, h2, ?_, h4, h5, h6⟩, ?_⟩
    · simpa [hmap] using h3
    · intro d' hd'
      simp only at hd'
      rcases mem_updateFirst hd' with hm | ⟨y, hy, hyd⟩
      · exact hx d' hm
      · have := hx y hy
        subst hyd
        simpa [applyDocumentUpdate] using this

theorem delete_document_good (t : Int) (db : DB) (i : Nat)
    (h : Good db) : Good (delete_document t db i).1 := by
  obtain ⟨⟨h1, h2, h3, h4, h5, h6⟩, hx⟩ := h
  rcases hfind : db.documents.find? (fun d => d.id == i) with _ | d
  · simpa [delete_document, hfind] using ⟨⟨h1, h2, h3, h4, h5, h6⟩, hx⟩
  · by_cases hg : db.archivedDocuments.any (fun a => a.original_id == d.id)
    · simpa [delete_document, hfind, hg] using ⟨⟨h1, h2, h3, h4, h5, h6⟩, hx⟩
    · simp only [delete_document, hfind, hg, Bool.false_eq_true, if_false]
      have hnotmem : d.id ∉ db.archivedDocuments.map (fun a => a.original_id) := by
        intro hm
        rcases List.mem_map.mp hm with ⟨a, ha, haid⟩
        exact hg (List.any_eq_true.mpr ⟨a, ha, by simp [haid]⟩)
      refine ⟨⟨h1, h2, nodup_map_filter _ _ h3, h4, h5, ?_⟩, ?_⟩
      · simpa [snapDocument] using nodup_append_singleton h6 hnotmem
      · intro d' hd'
        exact hx d' (List.mem_filter.mp hd').1

theorem sweep_archive_nodup {α β : Type} (gid : α → Nat) (gorig : β → Nat)
    (snap : α → β) (hsnap : ∀ x, gorig (snap x) = gid x)
    (old : List β) (l : List α) (p q : α → Bool)
    (hold : (old.map gorig).Nodup) (hl : (l.map gid).Nodup)
    (hguard : ∀ x ∈ (l.filter p).filter q, gid x ∉ old.map gorig) :
    ((old ++ ((l.filter p).filter q).map snap).map gorig).Nodup := by
  rw [List.map_append]
  refine nodup_append_block hold ?_ ?_
  · have hmm : (((l.filter p).filter q).map snap).map gorig
        = ((l.filter p).filter q).map gid := by
      rw [List.map_map]
      exact List.map_congr_left (fun x _ => hsnap x)
    rw [hmm]
    exact nodup_map_filter _ _ (nodup_map_filter _ _ hl)
  · intro x hxm hxold
    rw [List.map_map] at hxm
    rcases List.mem_map.mp hxm with ⟨e, he, heq⟩
    have hgx : gid e = x := by rw [← hsnap e]; exact heq
    exact hguard e he (hgx ▸ hxold)

theorem manual_archive_trigger_good (t : Int) (n : Nat) (db : DB)
    (h : Good db) : Good (manual_archive_trigger t n db).1 := by
  obtain ⟨⟨h1, h2, h3, h4, h5, h6⟩, hx⟩ := h
  simp only [manual_archive_trigger]
  refine ⟨⟨nodup_map_filter _ _ h1, nodup_map_filter _ _ h2,
      nodup_map_filter _ _ h3,
      sweep_archive_nodup _ _ _ (fun x => rfl) _ _ _ _ h4 h1 ?_,
      sweep_archive_nodup _ _ _ (fun x => rfl) _ _ _ _ h5 h2 ?_,
      sweep_archive_nodup _ _ _ (fun x => rfl) _ _ _ _ h6 h3 ?_⟩, ?_⟩
  · intro x hxm hmem
    have hq := (List.mem_filter.mp hxm).2
    rw [Bool.not_eq_true', List.any_eq_false] at hq
    rcases List.mem_map.mp hmem with ⟨a, ha, haid⟩
    exact hq a ha (by simp [haid, snapEmployee])
  · intro x hxm hmem
    have hq := (List.mem_filter.mp hxm).2
    rw [Bool.not_eq_true', List.any_eq_false] at hq
    rcases List.mem_map.mp hmem with ⟨a, ha, haid⟩
    exact hq a ha (by simp [haid, snapTrucker])
  · intro x hxm hmem
    have hq := (List.mem_filter.mp hxm).2
    rw [Bool.not_eq_true', List.any_eq_false] at hq
    rcases List.mem_map.mp hmem with ⟨a, ha, haid⟩
    exact hq a ha (by simp [haid, snapDocument])
  · intro d hd
    exact hx d (List.mem_filter.mp hd).1

theorem emptyDB_good : Good emptyDB := by
  constructor
  · exact ⟨List.nodup_nil, List.nodup_nil, List.nodup_nil, List.nodup_nil,
      List.nodup_nil, List.nodup_nil⟩
  · intro d hd
    cases hd

theorem good_of_reachable {db : DB} (h : Reachable db) : Good db := by
  induction h with
  | init => exact emptyDB_good
  | register_employee_step t db inp _ ih => exact register_employee_good t db inp ih
  | update_employee_step db i u _ ih => exact update_employee_good db i u ih
  | delete_employee_step t db i _ ih => exact delete_employee_good t db i ih
  | register_trucker_step t db inp _ ih => exact register_trucker_good t db inp ih
  | update_trucker_step db i u _ ih => exact update_trucker_good db i u ih
  | delete_trucker_step t db i _ ih => exact delete_trucker_good t db i ih
  | create_document_step t db inp _ ih => exact create_document_good t db inp ih
  | update_document_step t db i u _ ih => exact update_document_good t db i u ih
  | delete_document_step t db i _ ih => exact delete_document_good t db i ih
  | sweep_step t n db _ ih => exact manual_archive_trigger_good t n db ih

/-! ## Claim theorems -/

/-- C1: in every reachable state each archive table contains at most one row
per `original_id`; and for each entity kind, a second archive/delete call for
the same id right after a successful one fails with `NotFound` and changes
nothing — no second snapshot is ever inserted. -/
theorem claim_c1_archive_at_most_once :
    (∀ db : DB, Reachable db →
      (db.archivedEmployees.map (fun a => a.original_id)).Nodup ∧
      (db.archivedTruckers.map (fun a => a.original_id)).Nodup ∧
      (db.archivedDocuments.map (fun a => a.original_id)).Nodup) ∧
    (∀ (t₁ t₂ : Int) (db db' : DB) (i : Nat),
      delete_employee t₁ db i = (db', .ok ()) →
      delete_employee t₂ db' i = (db', .error .notFound)) ∧
    (∀ (t₁ t₂ : Int) (db db' : DB) (i : Nat),
      delete_trucker t₁ db i = (db', .ok ()) →
      delete_trucker t₂ db' i = (db', .error .notFound)) ∧
    (∀ (t₁ t₂ : Int) (db db' : DB) (i : Nat),
      delete_document t₁ db i = (db', .ok ()) →
      delete_document t₂ db' i = (db', .error .notFound)) := by
  refine ⟨?_, ?_, ?_, ?_⟩
  · intro db hr
    obtain ⟨⟨-, -, -, h4, h5, h6⟩, -⟩ := good_of_reachable hr
    exact ⟨h4, h5, h6⟩
  · intro t₁ t₂ db db' i h
    rcases hfind : db.employees.find? (fun e => e.id == i) with _ | e
    · simp [delete_employee, hfind] at h
    · by_cases hg : db.archivedEmployees.any (fun a => a.original_id == e.id)
      · simp [delete_employee, hfind, hg] at h
      · simp only [delete_employee, hfind, hg, Bool.false_eq_true, if_false] at h
        have hdb := congrArg Prod.fst h
        simp only at hdb
        subst hdb
        have hnone : (db.employees.filter (fun x => x.id != i)).find?
            (fun e => e.id == i) = none := by
          rw [List.find?_eq_none]
          intro x hxm
          have := (List.mem_filter.mp hxm).2
          simpa using this
        simp [delete_employee, hnone]
  · intro t₁ t₂ db db' i h
    rcases hfind : db.truckers.find? (fun x => x.id == i) with _ | tk
    · simp [delete_trucker, hfind] at h
    · by_cases hg : db.archivedTruckers.any (fun a => a.original_id == tk.id)
      · simp [delete_trucker, hfind, hg] at h
      · simp only [delete_trucker, hfind, hg, Bool.false_eq_true, if_false] at h
        have hdb := congrArg Prod.fst h
        simp only at hdb
        subst hdb
        have hnone : (db.truckers.filter (fun x => x.id != i)).find?
            (fun x => x.id == i) = none := by
          rw [List.find?_eq_none]
          intro x hxm
          have := (List.mem_filter.mp hxm).2
          simpa using this
        simp [delete_trucker, hnone]
  · intro t₁ t₂ db db' i h
    rcases hfind : db.documents.find? (fun d => d.id == i) with _ | d
    · simp [delete_document, hfind] at h
    · by_cases hg : db.archivedDocuments.any (fun a => a.original_id == d.id)
      · simp [delete_document, hfind, hg] at h
      · simp only [delete_document, hfind, hg, Bool.false_eq_true, if_false] at h
        have hdb := congrArg Prod.fst h
        simp only at hdb
        subst hdb
        have hnone : (db.documents.filter (fun x => x.id != i)).find?
            (fun d => d.id == i) = none := by
          rw [List.find?_eq_none]
          intro x hxm
          have := (List.mem_filter.mp hxm).2
          simpa using this
        simp [delete_document, hnone]

/-- Witness for C1: the invariant holds of the (reachable) empty store, and a
concrete delete-then-delete run on a one-employee store hits `NotFound` the
second time without touching the state. -/
theorem claim_c1_archive_at_most_once_witness :
    ((emptyDB.archivedEmployees.map (fun a => a.original_id)).Nodup ∧
      (emptyDB.archivedTruckers.map (fun a => a.original_id)).Nodup ∧
      (emptyDB.archivedDocuments.map (fun a => a.original_id)).Nodup) ∧
    delete_employee 11
        (delete_employee 10 ⟨[exEmployee 1 true 0], [], [], [], [], []⟩ 1).1 1 =
      ((delete_employee 10 ⟨[exEmployee 1 true 0], [], [], [], [], []⟩ 1).1,
        .error .notFound) := by
  constructor
  · exact claim_c1_archive_at_most_once.1 emptyDB Reachable.init
  · exact claim_c1_archive_at_most_once.2.1 10 11
      ⟨[exEmployee 1 true 0], [], [], [], [], []⟩
      (delete_employee 10 ⟨[exEmployee 1 true 0], [], [], [], [], []⟩ 1).1 1
      (by rfl)

/-- C2: each single-record archival (the delete endpoint on Employee,
Trucker or Document) is all-or-nothing: either the call succeeds and the
post-state is exactly the fully archived state — snapshot appended, active
row (and, for persons, its documents) deleted — or the call fails and the
store is exactly the pre-state. -/
theorem claim_c2_archival_atomic :
    (∀ (t : Int) (db : DB) (i : Nat),
      (∃ e, db.employees.find? (fun x => x.id == i) = some e ∧
        delete_employee t db i =
          ({ db with
              employees := db.employees.filter (fun x => x.id != i)
              documents := db.documents.filter (fun d => d.employee_id != some i)
              archivedEmployees := db.archivedEmployees ++
                [snapEmployee t "Manual deletion from active records." e] },
            .ok ())) ∨
      ((delete_employee t db i).1 = db ∧
        ∃ err, (delete_employee t db i).2 = .error err)) ∧
    (∀ (t : Int) (db : DB) (i : Nat),
      (∃ tk, db.truckers.find? (fun x => x.id == i) = some tk ∧
        delete_trucker t db i =
          ({ db with
              truckers := db.truckers.filter (fun x => x.id != i)
              documents := db.documents.filter (fun d => d.trucker_id != some i)
              archivedTruckers := db.archivedTruckers ++
                [snapTrucker t "Manual deletion from active records." tk] },
            .ok ())) ∨
      ((delete_trucker t db i).1 = db ∧
        ∃ err, (delete_trucker t db i).2 = .error err)) ∧
    (∀ (t : Int) (db : DB) (i : Nat),
      (∃ d, db.documents.find? (fun x => x.id == i) = some d ∧
        delete_document t db i =
          ({ db with
              documents := db.documents.filter (fun x => x.id != i)
              archivedDocuments := db.archivedDocuments ++
                [snapDocument t "Manual deletion from active records." d] },
            .ok ())) ∨
      ((delete_document t db i).1 = db ∧
        ∃ err, (delete_document t db i).2 = .error err)) := by
  refine ⟨?_, ?_, ?_⟩
  · intro t db i
    rcases hfind : db.employees.find? (fun x => x.id == i) with _ | e
    · exact Or.inr (by simp [delete_employee, hfind])
    · by_cases hg : db.archivedEmployees.any (fun a => a.original_id == e.id)
      · exact Or.inr (by simp [delete_employee, hfind, hg])
      · exact Or.inl ⟨e, hfind, by simp [delete_employee, hfind, hg]⟩
  · intro t db i
    rcases hfind : db.truckers.find? (fun x => x.id == i) with _ | tk
    · exact Or.inr (by simp [delete_trucker, hfind])
    · by_cases hg : db.archivedTruckers.any (fun a => a.original_id == tk.id)
      · exact Or.inr (by simp [delete_trucker, hfind, hg])
      · exact Or.inl ⟨tk, hfind, by simp [delete_trucker, hfind, hg]⟩
  · intro t db i
    rcases hfind : db.documents.find? (fun x => x.id == i) with _ | d
    · exact Or.inr (by simp [delete_document, hfind])
    · by_cases hg : db.archivedDocuments.any (fun a => a.original_id == d.id)
      · exact Or.inr (by simp [delete_document, hfind, hg])
      · exact Or.inl ⟨d, hfind, by simp [delete_document, hfind, hg]⟩

/-- C7: a document-creation input with both person references set, or with
neither set, is rejected by schema validation (and the store is unchanged);
consequently every document persisted in a reachable store has exactly one
of `employee_id`/`trucker_id` set. -/
theorem claim_c7_document_xor :
    (∀ (t : Int) (db : DB) (inp : DocumentCreate),
      ((inp.employee_id ≠ none ∧ inp.trucker_id ≠ none) ∨
        (inp.employee_id = none ∧ inp.trucker_id = none)) →
      create_document_endpoint t db inp = (db, .error .validationError)) ∧
    (∀ db : DB, Reachable db → ∀ d ∈ db.documents,
      (d.employee_id ≠ none ∧ d.trucker_id = none) ∨
      (d.employee_id = none ∧ d.trucker_id ≠ none)) := by
  constructor
  · intro t db inp hbad
    have hval : documentCreateXorOk inp = false := by
      rcases hE : inp.employee_id with _ | ev <;>
        rcases hT : inp.trucker_id with _ | tv <;>
        simp_all [documentCreateXorOk]
    simp [create_document_endpoint, hval]
  · intro db hr
    exact (good_of_reachable hr).2

/-- Witness for C7: the both-none input is rejected on the empty store, and
in the store reached by registering an employee and uploading a document for
them, the persisted document carries exactly the employee reference. -/
theorem claim_c7_document_xor_witness :
    create_document_endpoint 5 emptyDB
        ⟨"Insurance", "/files/a.pdf", none, none⟩ =
      (emptyDB, .error .validationError) ∧
    (((exDocumentE 1 1 0).employee_id ≠ none ∧ (exDocumentE 1 1 0).trucker_id = none) ∨
      ((exDocumentE 1 1 0).employee_id = none ∧ (exDocumentE 1 1 0).trucker_id ≠ none)) := by
  constructor
  · exact claim_c7_document_xor.1 5 emptyDB
      ⟨"Insurance", "/files/a.pdf", none, none⟩ (Or.inr ⟨rfl, rfl⟩)
  · exact claim_c7_document_xor.2
      (create_document_endpoint 0
        (register_employee 0 emptyDB ⟨"Jane", "Doe", "4165550000", "jane1@x.com", "Packer"⟩).1
        ⟨"Insurance", "/files/d1.pdf", some 1, none⟩).1
      (Reachable.create_document_step 0 _ _
        (Reachable.register_employee_step 0 emptyDB _ Reachable.init))
      (exDocumentE 1 1 0) (by decide)

theorem update_document_ok (t : Int) {db : DB} {i : Nat} (u : DocumentUpdate)
    {d : Document} (h : db.documents.find? (fun x => x.id == i) = some d) :
    update_document t db i u =
      ({ db with documents := (updateFirst (fun x => x.id == i)
          (applyDocumentUpdate t u) db.documents) },
        .ok (applyDocumentUpdate t u d)) := by
  simp [update_document, h]

/-- C6: updating an unverified document (unset `verification_date`) with
`is_verified = true` stamps `verification_date` with the current date even
though the caller cannot supply it; a second `is_verified = true` update at a
possibly different date leaves the stamped date unchanged. -/
theorem claim_c6_verification_date_once :
    ∀ (t₁ t₂ : Int) (db : DB) (i : Nat) (u₁ u₂ : DocumentUpdate) (d : Document),
      db.documents.find? (fun x => x.id == i) = some d →
      d.is_verified = false →
      d.verification_date = none →
      u₁.is_verified = some true →
      u₂.is_verified = some true →
      ∃ d₁,
        (update_document t₁ db i u₁).2 = .ok d₁ ∧
        d₁.is_verified = true ∧
        d₁.verification_date = some t₁ ∧
        ∃ d₂,
          (update_document t₂ (update_document t₁ db i u₁).1 i u₂).2 = .ok d₂ ∧
          d₂.is_verified = true ∧
          d₂.verification_date = some t₁ := by
  intro t₁ t₂ db i u₁ u₂ d hfind hver hvd hu₁ hu₂
  have hpd : (d.id == i) = true := by
    have hps := List.find?_some hfind
    simpa using hps
  have hfind₁ : (update_document t₁ db i u₁).1.documents.find? (fun x => x.id == i)
      = some (applyDocumentUpdate t₁ u₁ d) := by
    have hp : ((applyDocumentUpdate t₁ u₁ d).id == i) = true := by
      simpa [applyDocumentUpdate] using hpd
    rw [update_document_ok t₁ u₁ hfind]
    exact find?_updateFirst hfind hp
  have hv₁ : (applyDocumentUpdate t₁ u₁ d).is_verified = true := by
    simp [applyDocumentUpdate, hu₁]
  have hvd₁ : (applyDocumentUpdate t₁ u₁ d).verification_date = some t₁ := by
    simp [applyDocumentUpdate, hu₁, hver]
  refine ⟨applyDocumentUpdate t₁ u₁ d, ?_, hv₁, hvd₁,
    applyDocumentUpdate t₂ u₂ (applyDocumentUpdate t₁ u₁ d), ?_, ?_, ?_⟩
  · rw [update_document_ok t₁ u₁ hfind]
  · rw [update_document_ok t₂ u₂ hfind₁]
  · generalize applyDocumentUpdate t₁ u₁ d = d₁ at hv₁
    simp [applyDocumentUpdate, hu₂]
  · generalize applyDocumentUpdate t₁ u₁ d = d₁ at hv₁ hvd₁
    simp [applyDocumentUpdate, hu₂, hv₁, hvd₁]

/-- Witness for C6: a concrete unverified document verified on day 3 gets
`verification_date = 3`, and re-verifying on day 9 keeps it at 3. -/
theorem claim_c6_verification_date_once_witness :
    ∃ d₁,
      (update_document 3 ⟨[], [exTrucker 1 true 0], [exDocumentT 1 1 0], [], [], []⟩
        1 ⟨none, none, some true, none⟩).2 = .ok d₁ ∧
      d₁.is_verified = true ∧
      d₁.verification_date = some 3 ∧
      ∃ d₂,
        (update_document 9
          (update_document 3 ⟨[], [exTrucker 1 true 0], [exDocumentT 1 1 0], [], [], []⟩
            1 ⟨none, none, some true, none⟩).1
          1 ⟨none, none, some true, none⟩).2 = .ok d₂ ∧
        d₂.is_verified = true ∧
        d₂.verification_date = some 3 :=
  claim_c6_verification_date_once 3 9
    ⟨[], [exTrucker 1 true 0], [exDocumentT 1 1 0], [], [], []⟩ 1
    ⟨none, none, some true, none⟩ ⟨none, none, some true, none⟩
    (exDocumentT 1 1 0) (by decide) (by decide) (by decide) rfl rfl

/-- Counterexample to C4 as stated: the referenced employee is inactive
(`is_active = false`), yet document creation succeeds and persists the
document instead of failing with `NotFound`. -/
theorem claim_c4_counterexample :
    (exEmployee 1 false 0).is_active = false ∧
    (upload_document 7 ⟨[exEmployee 1 false 0], [], [], [], [], []⟩
        ⟨"Insurance", "/files/a.pdf", some 1, none⟩).2 =
      .ok { id := 1, document_type := "Insurance", file_path := "/files/a.pdf",
            upload_date := 7, is_verified := false, verification_date := none,
            verified_by := none, employee_id := some 1, trucker_id := none } := by
  exact ⟨rfl, rfl⟩

/-- C4 amended: for a schema-valid input, document creation fails with
`NotFound` (store unchanged) exactly when the person lookup fails, and
succeeds (appending one document) exactly when it finds a row; the lookup
succeeds precisely when the single person reference carries a nonzero id
denoting a row present in the corresponding active table — the row's
`is_active` flag plays no part. -/
theorem claim_c4_upload_requires_existing_person :
    ∀ (t : Int) (db : DB) (inp : DocumentCreate),
      documentCreateXorOk inp = true →
      (documentPersonFound db inp = false →
        upload_document t db inp = (db, .error .notFound)) ∧
      (documentPersonFound db inp = true →
        upload_document t db inp =
          ({ db with documents := db.documents ++ [newDocument t db inp] },
            .ok (newDocument t db inp))) ∧
      (documentPersonFound db inp = true ↔
        ((∃ j, inp.employee_id = some j ∧ j ≠ 0 ∧ ∃ e ∈ db.employees, e.id = j) ∨
          (inp.employee_id = none ∧
            ∃ j, inp.trucker_id = some j ∧ j ≠ 0 ∧
              ∃ tk ∈ db.truckers, tk.id = j))) := by
  intro t db inp hval
  refine ⟨?_, ?_, ?_⟩
  · intro hf
    simp [upload_document, hf]
  · intro hf
    simp [upload_document, hf]
  · rcases hE : inp.employee_id with _ | ev <;>
      rcases hT : inp.trucker_id with _ | tv
    · simp [documentCreateXorOk, hE, hT] at hval
    · by_cases hz : tv = 0
      · subst hz
        simp [documentPersonFound, truthyNat, hE, hT]
      · simp [documentPersonFound, truthyNat, hE, hT, hz, List.any_eq_true]
    · by_cases hz : ev = 0
      · subst hz
        simp [documentPersonFound, truthyNat, hE, hT]
      · simp [documentPersonFound, truthyNat, hE, hT, hz, List.any_eq_true]
    · simp [documentCreateXorOk, hE, hT] at hval

/-- Witness for C4 amended: on the empty store the lookup fails and creation
returns `NotFound`; on a store holding only an inactive employee with id 1,
the lookup succeeds (right-hand characterisation included) and creation
succeeds. -/
theorem claim_c4_upload_requires_existing_person_witness :
    upload_document 7 emptyDB ⟨"Insurance", "/files/a.pdf", some 1, none⟩ =
      (emptyDB, .error .notFound) ∧
    upload_document 7 ⟨[exEmployee 1 false 0], [], [], [], [], []⟩
        ⟨"Insurance", "/files/a.pdf", some 1, none⟩ =
      ({ (⟨[exEmployee 1 false 0], [], [], [], [], []⟩ : DB) with
          documents := (⟨[exEmployee 1 false 0], [], [], [], [], []⟩ : DB).documents
            ++ [newDocument 7 ⟨[exEmployee 1 false 0], [], [], [], [], []⟩
                ⟨"Insurance", "/files/a.pdf", some 1, none⟩] },
        .ok (newDocument 7 ⟨[exEmployee 1 false 0], [], [], [], [], []⟩
                ⟨"Insurance", "/files/a.pdf", some 1, none⟩)) ∧
    (documentPersonFound ⟨[exEmployee 1 false 0], [], [], [], [], []⟩
        ⟨"Insurance", "/files/a.pdf", some 1, none⟩ = true ↔
      ((∃ j, (⟨"Insurance", "/files/a.pdf", some 1, none⟩ : DocumentCreate).employee_id
          = some j ∧ j ≠ 0 ∧
          ∃ e ∈ (⟨[exEmployee 1 false 0], [], [], [], [], []⟩ : DB).employees, e.id = j) ∨
        ((⟨"Insurance", "/files/a.pdf", some 1, none⟩ : DocumentCreate).employee_id = none ∧
          ∃ j, (⟨"Insurance", "/files/a.pdf", some 1, none⟩ : DocumentCreate).trucker_id
            = some j ∧ j ≠ 0 ∧
            ∃ tk ∈ (⟨[exEmployee 1 false 0], [], [], [], [], []⟩ : DB).truckers,
              tk.id = j))) := by
  refine ⟨?_, ?_, ?_⟩
  · exact (claim_c4_upload_requires_existing_person 7 emptyDB
      ⟨"Insurance", "/files/a.pdf", some 1, none⟩ (by decide)).1 (by decide)
  · exact (claim_c4_upload_requires_existing_person 7
      ⟨[exEmployee 1 false 0], [], [], [], [], []⟩
      ⟨"Insurance", "/files/a.pdf", some 1, none⟩ (by decide)).2.1 (by decide)
  · exact (claim_c4_upload_requires_existing_person 7
      ⟨[exEmployee 1 false 0], [], [], [], [], []⟩
      ⟨"Insurance", "/files/a.pdf", some 1, none⟩ (by decide)).2.2

/-- Counterexample to C5 as stated: registering a trucker whose email equals
an existing trucker's email (licence and truck id fresh) is rejected, but by
the database unique constraint (surfaced as a server error), not by the
endpoint's `Conflict` response. -/
theorem claim_c5_counterexample :
    (register_trucker 5 ⟨[], [exTrucker 1 true 0], [], [], [], []⟩
        ⟨"Ann", "Lee", "4165552222", some "max1@t.com", "LIC2", "ON",
          some "TRK2", none⟩).2 ≠ .error .conflict ∧
    register_trucker 5 ⟨[], [exTrucker 1 true 0], [], [], [], []⟩
        ⟨"Ann", "Lee", "4165552222", some "max1@t.com", "LIC2", "ON",
          some "TRK2", none⟩ =
      (⟨[], [exTrucker 1 true 0], [], [], [], []⟩, .error .uniqueViolation) := by
  exact ⟨by decide, by decide⟩

/-- C5 amended: a duplicate `driver_license_number`, or a duplicate truthy
`truck_id_number`, is rejected by the endpoint with `Conflict` and the store
is unchanged; a duplicate non-null email that passes those checks is also
rejected with the store unchanged, but by the `truckers.email` unique
constraint at commit (a server-side unique-violation error), not by
`Conflict`. -/
theorem claim_c5_trucker_uniqueness :
    ∀ (t : Int) (db : DB) (inp : TruckerCreate),
      (db.truckers.any
          (fun x => x.driver_license_number == inp.driver_license_number) = true →
        register_trucker t db inp = (db, .error .conflict)) ∧
      (db.truckers.any
          (fun x => x.driver_license_number == inp.driver_license_number) = false →
        truthyStr inp.truck_id_number = true →
        db.truckers.any (fun x => x.truck_id_number == inp.truck_id_number) = true →
        register_trucker t db inp = (db, .error .conflict)) ∧
      (db.truckers.any
          (fun x => x.driver_license_number == inp.driver_license_number) = false →
        (truthyStr inp.truck_id_number &&
          db.truckers.any (fun x => x.truck_id_number == inp.truck_id_number)) = false →
        truckerEmailDup db inp = true →
        register_trucker t db inp = (db, .error .uniqueViolation)) := by
  intro t db inp
  refine ⟨?_, ?_, ?_⟩
  · intro h1
    simp [register_trucker, h1]
  · intro h1 h2 h3
    simp [register_trucker, h1, h2, h3]
  · intro h1 h2 h3
    simp [register_trucker, h1, h2, h3]

/-- Witness for C5 amended: concrete duplicate-licence and duplicate-truck-id
registrations are rejected with `Conflict`, and a concrete duplicate-email
registration is rejected by the unique constraint, each leaving the store
unchanged. -/
theorem claim_c5_trucker_uniqueness_witness :
    register_trucker 5 ⟨[], [exTrucker 1 true 0], [], [], [], []⟩
        ⟨"Ann", "Lee", "4165552222", none, "LIC1", "ON", none, none⟩ =
      (⟨[], [exTrucker 1 true 0], [], [], [], []⟩, .error .conflict) ∧
    register_trucker 5 ⟨[], [exTrucker 1 true 0], [], [], [], []⟩
        ⟨"Ann", "Lee", "4165552222", none, "LIC2", "ON", some "TRK1", none⟩ =
      (⟨[], [exTrucker 1 true 0], [], [], [], []⟩, .error .conflict) ∧
    register_trucker 5 ⟨[], [exTrucker 1 true 0], [], [], [], []⟩
        ⟨"Ann", "Lee", "4165552222", some "max1@t.com", "LIC2", "ON",
          some "TRK2", none⟩ =
      (⟨[], [exTrucker 1 true 0], [], [], [], []⟩, .error .uniqueViolation) := by
  refine ⟨?_, ?_, ?_⟩
  · exact (claim_c5_trucker_uniqueness 5 ⟨[], [exTrucker 1 true 0], [], [], [], []⟩
      ⟨"Ann", "Lee", "4165552222", none, "LIC1", "ON", none, none⟩).1 (by decide)
  · exact (claim_c5_trucker_uniqueness 5 ⟨[], [exTrucker 1 true 0], [], [], [], []⟩
      ⟨"Ann", "Lee", "4165552222", none, "LIC2", "ON", some "TRK1", none⟩).2.1
      (by decide) (by decide) (by decide)
  · exact (claim_c5_trucker_uniqueness 5 ⟨[], [exTrucker 1 true 0], [], [], [], []⟩
      ⟨"Ann", "Lee", "4165552222", some "max1@t.com", "LIC2", "ON",
        some "TRK2", none⟩).2.2 (by decide) (by decide) (by decide)

/-- Counterexample to C3 as stated: sweeping with `days_old = 0` on day 100
leaves an inactive employee in the active table (its `original_id` already
sits in the archive, so the idempotency guard skips it) and leaves a document
uploaded today in the active table (`upload_date < cutoff` is strict and the
cutoff is today), contradicting "archives every inactive Employee" and "no
document remains". -/
theorem claim_c3_counterexample :
    (manual_archive_trigger 100 0 exC3db).1.employees = [exEmployee 1 false 100] ∧
    (exEmployee 1 false 100).is_active = false ∧
    (manual_archive_trigger 100 0 exC3db).1.documents = [exDocumentT 1 1 100] := by
  decide

/-- C3 amended: `sweep(days_old = 0)` archives (removes and snapshots) every
inactive Employee and Trucker whose `original_id` is not already in the
corresponding archive, and every Document with `upload_date` strictly before
today that is not already archived; a document uploaded today is never
snapshotted, and it stays in the active table as long as its owner is not
removed by the sweep (the owner's deletion cascades to its documents). -/
theorem claim_c3_sweep_zero_days :
    ∀ (today : Int) (db : DB),
      (∀ e ∈ db.employees, e.is_active = false →
        (∀ a ∈ db.archivedEmployees, a.original_id ≠ e.id) →
        (∀ x ∈ (manual_archive_trigger today 0 db).1.employees, x.id ≠ e.id) ∧
        ∃ a ∈ (manual_archive_trigger today 0 db).1.archivedEmployees,
          a.original_id = e.id) ∧
      (∀ tk ∈ db.truckers, tk.is_active = false →
        (∀ a ∈ db.archivedTruckers, a.original_id ≠ tk.id) →
        (∀ x ∈ (manual_archive_trigger today 0 db).1.truckers, x.id ≠ tk.id) ∧
        ∃ a ∈ (manual_archive_trigger today 0 db).1.archivedTruckers,
          a.original_id = tk.id) ∧
      (∀ d ∈ db.documents, d.upload_date < today →
        (∀ a ∈ db.archivedDocuments, a.original_id ≠ d.id) →
        (∀ x ∈ (manual_archive_trigger today 0 db).1.documents, x.id ≠ d.id) ∧
        ∃ a ∈ (manual_archive_trigger today 0 db).1.archivedDocuments,
          a.original_id = d.id) ∧
      ((db.documents.map (fun x => x.id)).Nodup →
        ∀ d ∈ db.documents, ¬(d.upload_date < today) →
        (∀ a ∈ (manual_archive_trigger today 0 db).1.archivedDocuments,
          a.original_id = d.id → a ∈ db.archivedDocuments) ∧
        ((∀ j, d.employee_id = some j →
            ∃ x ∈ (manual_archive_trigger today 0 db).1.employees, x.id = j) →
          (∀ j, d.trucker_id = some j →
            ∃ x ∈ (manual_archive_trigger today 0 db).1.truckers, x.id = j) →
          d ∈ (manual_archive_trigger today 0 db).1.documents)) := by
  intro today db
  refine ⟨?_, ?_, ?_, ?_⟩
  · intro e he hact hnew
    simp only [manual_archive_trigger]
    have harch : e ∈ (db.employees.filter
        (fun e => !e.is_active || decide (e.registration_date < today - ((0 : Nat) : Int)))).filter
        (fun e => !db.archivedEmployees.any (fun a => a.original_id == e.id)) := by
      refine List.mem_filter.mpr ⟨List.mem_filter.mpr ⟨he, by simp [hact]⟩, ?_⟩
      simp only [Bool.not_eq_true']
      rw [List.any_eq_false]
      intro a ha
      simpa using hnew a ha
    constructor
    · intro x hx
      have hcond := (List.mem_filter.mp hx).2
      intro hxe
      rw [Bool.not_eq_true'] at hcond
      have hm : x.id ∈ (((db.employees.filter
          (fun e => !e.is_active || decide (e.registration_date < today - ((0 : Nat) : Int)))).filter
          (fun e => !db.archivedEmployees.any (fun a => a.original_id == e.id))).map
          (fun x => x.id)) := by
        rw [hxe]
        exact List.mem_map.mpr ⟨e, harch, rfl⟩
      simp [List.elem_eq_true_of_mem hm] at hcond
      exact hcond e he hnew (Or.inl hact) hxe.symm
    · exact ⟨snapEmployee today ("Automated archive: inactive or older than " ++
          toString 0 ++ " days.") e,
        List.mem_append.mpr (Or.inr (List.mem_map.mpr ⟨e, harch, rfl⟩)), rfl⟩
  · intro tk htk hact hnew
    simp only [manual_archive_trigger]
    have harch : tk ∈ (db.truckers.filter
        (fun t => !t.is_active || decide (t.registration_date < today - ((0 : Nat) : Int)))).filter
        (fun t => !db.archivedTruckers.any (fun a => a.original_id == t.id)) := by
      refine List.mem_filter.mpr ⟨List.mem_filter.mpr ⟨htk, by simp [hact]⟩, ?_⟩
      simp only [Bool.not_eq_true']
      rw [List.any_eq_false]
      intro a ha
      simpa using hnew a ha
    constructor
    · intro x hx
      have hcond := (List.mem_filter.mp hx).2
      intro hxe
      rw [Bool.not_eq_true'] at hcond
      have hm : x.id ∈ (((db.truckers.filter
          (fun t => !t.is_active || decide (t.registration_date < today - ((0 : Nat) : Int)))).filter
          (fun t => !db.archivedTruckers.any (fun a => a.original_id == t.id))).map
          (fun x => x.id)) := by
        rw [hxe]
        exact List.mem_map.mpr ⟨tk, harch, rfl⟩
      simp [List.elem_eq_true_of_mem hm] at hcond
      exact hcond tk htk hnew (Or.inl hact) hxe.symm
    · exact ⟨snapTrucker today ("Automated archive: inactive or older than " ++
          toString 0 ++ " days.") tk,
        List.mem_append.mpr (Or.inr (List.mem_map.mpr ⟨tk, harch, rfl⟩)), rfl⟩
  · intro d hd hold hnew
    simp only [manual_archive_trigger]
    have harch : d ∈ (db.documents.filter
        (fun x => decide (x.upload_date < today - ((0 : Nat) : Int)))).filter
        (fun x => !db.archivedDocuments.any (fun a => a.original_id == x.id)) := by
      refine List.mem_filter.mpr ⟨List.mem_filter.mpr ⟨hd, by simpa using hold⟩, ?_⟩
      simp only [Bool.not_eq_true']
      rw [List.any_eq_false]
      intro a ha
      simpa using hnew a ha
    constructor
    · intro x hx
      have hcond := (List.mem_filter.mp hx).2
      intro hxe
      rw [Bool.and_eq_true, Bool.and_eq_true] at hcond
      have hc1 := hcond.1.1
      rw [Bool.not_eq_true'] at hc1
      have hm : x.id ∈ (((db.documents.filter
          (fun x => decide (x.upload_date < today - ((0 : Nat) : Int)))).filter
          (fun x => !db.archivedDocuments.any (fun a => a.original_id == x.id))).map
          (fun x => x.id)) := by
        rw [hxe]
        exact List.mem_map.mpr ⟨d, harch, rfl⟩
      simp [List.elem_eq_true_of_mem hm] at hc1
      exact hc1 d hd hnew hold hxe.symm
    · exact ⟨snapDocument today ("Automated archive: uploaded more than " ++
          toString 0 ++ " days ago.") d,
        List.mem_append.mpr (Or.inr (List.mem_map.mpr ⟨d, harch, rfl⟩)), rfl⟩
  · intro hnodup d hd hfresh
    have hnotsel : ∀ d' ∈ (db.documents.filter
        (fun x => decide (x.upload_date < today - ((0 : Nat) : Int)))).filter
        (fun x => !db.archivedDocuments.any (fun a => a.original_id == x.id)),
        d'.id ≠ d.id := by
      intro d' hd' heq
      have hd'mem := (List.mem_filter.mp (List.mem_filter.mp hd').1).1
      have hd'old := (List.mem_filter.mp (List.mem_filter.mp hd').1).2
      have : d' = d := List.inj_on_of_nodup_map hnodup hd'mem hd heq
      subst this
      simp at hd'old
      exact hfresh hd'old
    constructor
    · intro a ha haid
      simp only [manual_archive_trigger] at ha
      rcases List.mem_append.mp ha with h | h
      · exact h
      · rcases List.mem_map.mp h with ⟨d', hd', rfl⟩
        exact absurd haid (by simpa [snapDocument] using hnotsel d' hd')
    · intro hE hT
      simp only [manual_archive_trigger] at hE hT ⊢
      refine List.mem_filter.mpr ⟨hd, ?_⟩
      rw [Bool.and_eq_true, Bool.and_eq_true]
      refine ⟨⟨?_, ?_⟩, ?_⟩
      · rw [Bool.not_eq_true']
        rw [← Bool.not_eq_true]
        intro hc
        simp at hc
        rcases hc with ⟨d', ⟨hd'mem, hd'old, hd'up⟩, heq⟩
        have hdd : d' = d := List.inj_on_of_nodup_map hnodup hd'mem hd heq
        subst hdd
        exact hfresh hd'up
      · rcases hEid : d.employee_id with _ | j
        · simp
        · have hsurv := hE j hEid
          rcases hsurv with ⟨x, hx, hxid⟩
          have hcond := (List.mem_filter.mp hx).2
          rw [Bool.not_eq_true'] at hcond
          simp only
          rw [Bool.not_eq_true']
          rw [← hxid]
          exact hcond
      · rcases hTid : d.trucker_id with _ | j
        · simp
        · have hsurv := hT j hTid
          rcases hsurv with ⟨x, hx, hxid⟩
          have hcond := (List.mem_filter.mp hx).2
          rw [Bool.not_eq_true'] at hcond
          simp only
          rw [Bool.not_eq_true']
          rw [← hxid]
          exact hcond

/-- Witness for C3 amended: on the concrete day-100 store, the inactive
employee is archived, the day-50 document is archived, and the day-100
document survives because its owner trucker survives. -/
theorem claim_c3_sweep_zero_days_witness :
    (exEmployee 1 false 100).is_active = false ∧
    ((∀ x ∈ (manual_archive_trigger 100 0 exC3w).1.employees, x.id ≠ 1) ∧
      ∃ a ∈ (manual_archive_trigger 100 0 exC3w).1.archivedEmployees,
        a.original_id = 1) ∧
    ((∀ x ∈ (manual_archive_trigger 100 0 exC3w).1.documents, x.id ≠ 2) ∧
      ∃ a ∈ (manual_archive_trigger 100 0 exC3w).1.archivedDocuments,
        a.original_id = 2) ∧
    exDocumentT 1 1 100 ∈ (manual_archive_trigger 100 0 exC3w).1.documents := by
  refine ⟨rfl, ?_, ?_, ?_⟩
  · exact (claim_c3_sweep_zero_days 100 exC3w).1 (exEmployee 1 false 100)
      (by decide) rfl (by decide)
  · exact (claim_c3_sweep_zero_days 100 exC3w).2.2.1 (exDocumentT 2 1 50)
      (by decide) (by decide) (by decide)
  · exact ((claim_c3_sweep_zero_days 100 exC3w).2.2.2 (by decide)
      (exDocumentT 1 1 100) (by decide) (by decide)).2
      (fun j hj => by simp [exDocumentT] at hj)
      (fun j hj => by
        have hj1 : j = 1 := by simpa [exDocumentT] using hj.symm
        subst hj1
        decide)

theorem range_three : List.range 3 = [0, 1, 2] := by decide

theorem rat_floor_eq_intFloor (q : ℚ) : Rat.floor q = ⌊q⌋ := rfl

theorem ols_246 : olsPredictNext [2, 4, 6] = 8 := by
  norm_num [olsPredictNext, range_three, List.zip_cons_cons, List.zip_nil_left]

theorem ols_346 : olsPredictNext [3, 4, 6] = 22 / 3 := by
  norm_num [olsPredictNext, range_three, List.zip_cons_cons, List.zip_nil_left]

/-- Counterexample to C8 as stated: a store whose active employees register
with monthly counts 2, 4, 6 over three consecutive months but which also
holds one inactive employee; the analysis does not restrict to active
employees, so it sees counts 3, 4, 6 and reports neither an average of 4.0
nor a projection of 8. -/
theorem claim_c8_counterexample :
    monthlyCounts ((exC8bad.employees.filter (fun e => e.is_active)).map
      (fun e => e.registration_date)) = [2, 4, 6] ∧
    (get_employee_growth exC8bad).average_monthly_growth ≠ 4 ∧
    (get_employee_growth exC8bad).projected_next_month ≠ some 8 := by
  have h : monthlyCounts (exC8bad.employees.map (fun e => e.registration_date))
      = [3, 4, 6] := by decide
  refine ⟨by decide, ?_, ?_⟩
  · simp only [get_employee_growth, h]
    norm_num
  · simp only [get_employee_growth, h, ols_346]
    norm_num
    rw [rat_floor_eq_intFloor]
    rw [show ⌊(22 / 3 : ℚ)⌋ = 7 by norm_num]
    decide

/-- C8 amended: when the monthly counts over all employees (the analysis
has no `is_active` filter) are 2, 4, 6 for three consecutive months, the
growth analysis reports `average_monthly_growth = 4` and projects 8 for the
next month; with fewer than two monthly data points no projection is
offered. -/
theorem claim_c8_growth :
    (∀ db : DB,
      monthlyCounts (db.employees.map (fun e => e.registration_date)) = [2, 4, 6] →
      (get_employee_growth db).average_monthly_growth = 4 ∧
      (get_employee_growth db).projected_next_month = some 8) ∧
    (∀ db : DB,
      (monthlyCounts (db.employees.map (fun e => e.registration_date))).length < 2 →
      (get_employee_growth db).projected_next_month = none) := by
  constructor
  · intro db h
    simp only [get_employee_growth, h, ols_246]
    constructor
    · norm_num
    · norm_num
      rw [rat_floor_eq_intFloor]
      rw [show ⌊(8 : ℚ)⌋ = 8 by norm_num]
      decide
  · intro db h
    simp only [get_employee_growth]
    rw [if_neg]
    omega

/-- Witness for C8 amended: the pure 2, 4, 6 store yields average 4 and
projection 8, and a store spanning a single month yields no projection. -/
theorem claim_c8_growth_witness :
    ((get_employee_growth exC8good).average_monthly_growth = 4 ∧
      (get_employee_growth exC8good).projected_next_month = some 8) ∧
    (get_employee_growth
      ⟨[exEmployee 1 true 0, exEmployee 2 true 1], [], [], [], [], []⟩).projected_next_month
      = none :=
  ⟨claim_c8_growth.1 exC8good (by decide),
    claim_c8_growth.2 ⟨[exEmployee 1 true 0, exEmployee 2 true 1], [], [], [], [], []⟩
      (by decide)⟩

/-- Counterexample to C9 as stated: with 2 active-table employees and 1
archived employee, the exact churn rate is 100/3 percent, but the endpoint
reports the two-decimal rounding 33.33, so the reported value does not equal
archived / (active + archived) x 100. -/
theorem claim_c9_counterexample :
    (get_business_impact exC9db).employee_churn_rate = 3333 / 100 ∧
    specChurnRate exC9db.archivedEmployees.length exC9db.employees.length = 100 / 3 ∧
    (3333 / 100 : ℚ) ≠ 100 / 3 := by
  refine ⟨?_, ?_, by norm_num⟩
  · have hlen1 : exC9db.employees.length = 2 := rfl
    have hlen2 : exC9db.archivedEmployees.length = 1 := rfl
    simp only [get_business_impact, hlen1, hlen2, round2, roundHalfEven]
    norm_num
  · have hlen1 : exC9db.employees.length = 2 := rfl
    have hlen2 : exC9db.archivedEmployees.length = 1 := rfl
    rw [hlen1, hlen2]
    simp only [specChurnRate]
    norm_num

/-- C9 amended: for every store, the reported churn rate per entity type is
the specification's churn formula — archive rows over (active-table rows plus
archive rows) times 100, zero on an empty denominator — rounded half-to-even
to two decimal places. -/
theorem claim_c9_churn_rates :
    ∀ db : DB,
      (get_business_impact db).employee_churn_rate =
        round2 (specChurnRate db.archivedEmployees.length db.employees.length) ∧
      (get_business_impact db).trucker_churn_rate =
        round2 (specChurnRate db.archivedTruckers.length db.truckers.length) := by
  intro db
  constructor
  · simp only [get_business_impact, specChurnRate]
    congr 1
    by_cases h : db.employees.length + db.archivedEmployees.length > 0
    · rw [if_pos h, if_pos h]
      push_cast
      ring
    · rw [if_neg h, if_neg h]
  · simp only [get_business_impact, specChurnRate]
    congr 1
    by_cases h : db.truckers.length + db.archivedTruckers.length > 0
    · rw [if_pos h, if_pos h]
      push_cast
      ring
    · rw [if_neg h, if_neg h]

theorem startsWithChars_self : ∀ l : List Char, startsWithChars l l = true := by
  intro l
  induction l with
  | nil => rfl
  | cons a as ih => simp [startsWithChars, ih]

theorem charsContain_self : ∀ l : List Char, charsContain l l = true := by
  intro l
  cases l with
  | nil => rfl
  | cons a as => simp [charsContain, startsWithChars_self]

theorem ilikeSub_self (s : String) : ilikeSub s s = true :=
  charsContain_self _

theorem mem_dedupAppend (acc : List SearchResult) (r x : SearchResult)
    (h : x ∈ acc) : x ∈ dedupAppend acc r := by
  by_cases hc : acc.any (fun y => y.id == r.id && y.rtype == r.rtype)
  · simpa [dedupAppend, hc] using h
  · simp only [dedupAppend, hc, Bool.false_eq_true, if_false]
    exact List.mem_append.mpr (Or.inl h)

theorem mem_foldl_dedupAppend {α : Type} (f : α → SearchResult) :
    ∀ (l : List α) (acc : List SearchResult) (x : SearchResult), x ∈ acc →
      x ∈ l.foldl (fun a e => dedupAppend a (f e)) acc := by
  intro l
  induction l with
  | nil => intro acc x h; simpa using h
  | cons a as ih =>
    intro acc x h
    exact ih (dedupAppend acc (f a)) x (mem_dedupAppend acc (f a) x h)

theorem reach_foldl_dedupAppend {α : Type} (f : α → SearchResult) :
    ∀ (l : List α) (acc : List SearchResult) (e : α), e ∈ l →
      ∃ r ∈ l.foldl (fun a x => dedupAppend a (f x)) acc,
        r.id = (f e).id ∧ r.rtype = (f e).rtype := by
  intro l
  induction l with
  | nil => intro acc e h; cases h
  | cons a as ih =>
    intro acc e h
    rcases List.mem_cons.mp h with h1 | h1
    · subst h1
      have hP : ∃ r ∈ dedupAppend acc (f e),
          r.id = (f e).id ∧ r.rtype = (f e).rtype := by
        by_cases hc : acc.any (fun y => y.id == (f e).id && y.rtype == (f e).rtype)
        · rcases List.any_eq_true.mp hc with ⟨r, hr, hrq⟩
          rw [Bool.and_eq_true] at hrq
          exact ⟨r, mem_dedupAppend acc (f e) r hr,
            by simpa using hrq.1, by simpa using hrq.2⟩
        · refine ⟨f e, ?_, rfl, rfl⟩
          simp only [dedupAppend, hc, Bool.false_eq_true, if_false]
          exact List.mem_append.mpr (Or.inr (List.mem_singleton.mpr rfl))
      rcases hP with ⟨r, hr, h1, h2⟩
      exact ⟨r, mem_foldl_dedupAppend f as (dedupAppend acc (f e)) r hr, h1, h2⟩
    · exact ih (dedupAppend acc (f a)) e h1

theorem searchIdPass_employee {db : DB} {q : String} {n : Int}
    (hq : parseIntStr q = some n) {e' : Employee}
    (hfind : db.employees.find? (fun x => (x.id : Int) == n) = some e') :
    empResult e' ∈ searchIdPass db q := by
  simp only [searchIdPass, hq, hfind]
  exact List.mem_append.mpr (Or.inl (List.mem_singleton.mpr rfl))

theorem searchIdPass_trucker {db : DB} {q : String} {n : Int}
    (hq : parseIntStr q = some n) {t' : Trucker}
    (hfind : db.truckers.find? (fun x => (x.id : Int) == n) = some t') :
    truckResult t' ∈ searchIdPass db q := by
  simp only [searchIdPass, hq, hfind]
  exact List.mem_append.mpr (Or.inr (List.mem_singleton.mpr rfl))

theorem mem_live_search_of_mem_base {db : DB} {q : String} {r : SearchResult}
    (h : r ∈ searchIdPass db q) : r ∈ live_search db q :=
  mem_foldl_dedupAppend truckResult (db.truckers.filter (truckerMatches q)) _ r
    (mem_foldl_dedupAppend empResult (db.employees.filter (employeeMatches q))
      (searchIdPass db q) r h)

/-- C10: a record in the active table is returned by the read endpoints no
matter its `is_active` flag — for an Employee as well as for a Trucker,
`get(id)` finds it, the full list page contains it, and search matches it
both by substring (its own email or licence number) and by id (any query
parsing as its id); and deactivating a record of either kind via partial
update (`is_active := false`) keeps it in the active table with its id and
identifying fields intact, so those reads still return it. -/
theorem claim_c10_inactive_still_visible :
    (∀ (db : DB) (e : Employee), e ∈ db.employees →
      (∃ e', get_employee db e.id = .ok e' ∧ e'.id = e.id) ∧
      e ∈ get_employees db 0 db.employees.length ∧
      (∃ r ∈ live_search db e.email, r.rtype = "employee" ∧ r.id = e.id) ∧
      (∀ q : String, parseIntStr q = some (e.id : Int) →
        ∃ r ∈ live_search db q, r.rtype = "employee" ∧ r.id = e.id)) ∧
    (∀ (db : DB) (tk : Trucker), tk ∈ db.truckers →
      (∃ t', get_trucker db tk.id = .ok t' ∧ t'.id = tk.id) ∧
      tk ∈ get_truckers db 0 db.truckers.length ∧
      (∃ r ∈ live_search db tk.driver_license_number,
        r.rtype = "trucker" ∧ r.id = tk.id) ∧
      (∀ q : String, parseIntStr q = some (tk.id : Int) →
        ∃ r ∈ live_search db q, r.rtype = "trucker" ∧ r.id = tk.id)) ∧
    (∀ (db : DB) (i : Nat) (e : Employee),
      db.employees.find? (fun x => x.id == i) = some e →
      ∃ e', (update_employee db i ⟨none, none, none, none, none, some false⟩).2 =
          .ok e' ∧
        e'.is_active = false ∧ e'.id = e.id ∧ e'.email = e.email ∧
        e' ∈ (update_employee db i
          ⟨none, none, none, none, none, some false⟩).1.employees) ∧
    (∀ (db : DB) (i : Nat) (tk : Trucker),
      db.truckers.find? (fun x => x.id == i) = some tk →
      ∃ t', (update_trucker db i
          ⟨none, none, none, none, none, none, none, none, some false⟩).2 =
          .ok t' ∧
        t'.is_active = false ∧ t'.id = tk.id ∧
        t'.driver_license_number = tk.driver_license_number ∧
        t' ∈ (update_trucker db i
          ⟨none, none, none, none, none, none, none, none, some false⟩).1.truckers) := by
  refine ⟨?_, ?_, ?_, ?_⟩
  · intro db e he
    refine ⟨?_, ?_, ?_, ?_⟩
    · rcases hf : db.employees.find? (fun x => x.id == e.id) with _ | e'
      · exfalso
        have := List.find?_eq_none.mp hf e he
        simp at this
      · exact ⟨e', by simp [get_employee, hf], by simpa using List.find?_some hf⟩
    · simp only [get_employees, List.drop_zero, List.take_length]
      exact he
    · have hmatch : e ∈ db.employees.filter (employeeMatches e.email) := by
        refine List.mem_filter.mpr ⟨he, ?_⟩
        simp [employeeMatches, ilikeSub_self]
      have hreach := reach_foldl_dedupAppend empResult
        (db.employees.filter (employeeMatches e.email))
        (searchIdPass db e.email) e hmatch
      rcases hreach with ⟨r, hr, h1, h2⟩
      refine ⟨r, ?_, h2, h1⟩
      exact mem_foldl_dedupAppend truckResult
        (db.truckers.filter (truckerMatches e.email)) _ r hr
    · intro q hq
      rcases hf : db.employees.find? (fun x => (x.id : Int) == (e.id : Int)) with _ | e'
      · exfalso
        have := List.find?_eq_none.mp hf e he
        simp at this
      · have hid : e'.id = e.id := by
          have hps := List.find?_some hf
          simpa using hps
        exact ⟨empResult e',
          mem_live_search_of_mem_base (searchIdPass_employee hq hf), rfl, hid⟩
  · intro db tk htk
    refine ⟨?_, ?_, ?_, ?_⟩
    · rcases hf : db.truckers.find? (fun x => x.id == tk.id) with _ | t'
      · exfalso
        have := List.find?_eq_none.mp hf tk htk
        simp at this
      · exact ⟨t', by simp [get_trucker, hf], by simpa using List.find?_some hf⟩
    · simp only [get_truckers, List.drop_zero, List.take_length]
      exact htk
    · have hmatch : tk ∈ db.truckers.filter
          (truckerMatches tk.driver_license_number) := by
        refine List.mem_filter.mpr ⟨htk, ?_⟩
        simp [truckerMatches, ilikeSub_self]
      have hreach := reach_foldl_dedupAppend truckResult
        (db.truckers.filter (truckerMatches tk.driver_license_number))
        ((db.employees.filter (employeeMatches tk.driver_license_number)).foldl
          (fun acc e => dedupAppend acc (empResult e))
          (searchIdPass db tk.driver_license_number)) tk hmatch
      rcases hreach with ⟨r, hr, h1, h2⟩
      exact ⟨r, hr, h2, h1⟩
    · intro q hq
      rcases hf : db.truckers.find? (fun x => (x.id : Int) == (tk.id : Int)) with _ | t'
      · exfalso
        have := List.find?_eq_none.mp hf tk htk
        simp at this
      · have hid : t'.id = tk.id := by
          have hps := List.find?_some hf
          simpa using hps
        exact ⟨truckResult t',
          mem_live_search_of_mem_base (searchIdPass_trucker hq hf), rfl, hid⟩
  · intro db i e hfind
    have hpd : (e.id == i) = true := by
      have hps := List.find?_some hfind
      simpa using hps
    refine ⟨applyEmployeeUpdate ⟨none, none, none, none, none, some false⟩ e,
      ?_, rfl, rfl, rfl, ?_⟩
    · simp [update_employee, hfind]
    · simp only [update_employee, hfind]
      have hp : ((applyEmployeeUpdate ⟨none, none, none, none, none, some false⟩ e).id
          == i) = true := by simpa [applyEmployeeUpdate] using hpd
      exact List.mem_of_find?_eq_some (find?_updateFirst hfind hp)
  · intro db i tk hfind
    have hpd : (tk.id == i) = true := by
      have hps := List.find?_some hfind
      simpa using hps
    refine ⟨applyTruckerUpdate
      ⟨none, none, none, none, none, none, none, none, some false⟩ tk,
      ?_, rfl, rfl, rfl, ?_⟩
    · simp [update_trucker, hfind]
    · simp only [update_trucker, hfind]
      have hp : ((applyTruckerUpdate
          ⟨none, none, none, none, none, none, none, none, some false⟩ tk).id
          == i) = true := by simpa [applyTruckerUpdate] using hpd
      exact List.mem_of_find?_eq_some (find?_updateFirst hfind hp)

/-- Witness for C10: stores holding a single deactivated employee or trucker
still return it from `get`, `list`, substring search and id search (query
"1"); and deactivating an active employee or trucker keeps it in the table
with its identifying fields intact. -/
theorem claim_c10_inactive_still_visible_witness :
    ((∃ e', get_employee ⟨[exEmployee 1 false 0], [], [], [], [], []⟩
        (exEmployee 1 false 0).id = .ok e' ∧ e'.id = (exEmployee 1 false 0).id) ∧
      exEmployee 1 false 0 ∈ get_employees ⟨[exEmployee 1 false 0], [], [], [], [], []⟩
        0 (⟨[exEmployee 1 false 0], [], [], [], [], []⟩ : DB).employees.length ∧
      (∃ r ∈ live_search ⟨[exEmployee 1 false 0], [], [], [], [], []⟩
        (exEmployee 1 false 0).email, r.rtype = "employee" ∧
        r.id = (exEmployee 1 false 0).id) ∧
      (∃ r ∈ live_search ⟨[exEmployee 1 false 0], [], [], [], [], []⟩ "1",
        r.rtype = "employee" ∧ r.id = (exEmployee 1 false 0).id)) ∧
    ((∃ t', get_trucker ⟨[], [exTrucker 1 false 0], [], [], [], []⟩
        (exTrucker 1 false 0).id = .ok t' ∧ t'.id = (exTrucker 1 false 0).id) ∧
      exTrucker 1 false 0 ∈ get_truckers ⟨[], [exTrucker 1 false 0], [], [], [], []⟩
        0 (⟨[], [exTrucker 1 false 0], [], [], [], []⟩ : DB).truckers.length ∧
      (∃ r ∈ live_search ⟨[], [exTrucker 1 false 0], [], [], [], []⟩
        (exTrucker 1 false 0).driver_license_number, r.rtype = "trucker" ∧
        r.id = (exTrucker 1 false 0).id) ∧
      (∃ r ∈ live_search ⟨[], [exTrucker 1 false 0], [], [], [], []⟩ "1",
        r.rtype = "trucker" ∧ r.id = (exTrucker 1 false 0).id)) ∧
    (∃ e', (update_employee ⟨[exEmployee 1 true 0], [], [], [], [], []⟩ 1
        ⟨none, none, none, none, none, some false⟩).2 = .ok e' ∧
      e'.is_active = false ∧ e'.id = (exEmployee 1 true 0).id ∧
      e'.email = (exEmployee 1 true 0).email ∧
      e' ∈ (update_employee ⟨[exEmployee 1 true 0], [], [], [], [], []⟩ 1
        ⟨none, none, none, none, none, some false⟩).1.employees) ∧
    (∃ t', (update_trucker ⟨[], [exTrucker 1 true 0], [], [], [], []⟩ 1
        ⟨none, none, none, none, none, none, none, none, some false⟩).2 = .ok t' ∧
      t'.is_active = false ∧ t'.id = (exTrucker 1 true 0).id ∧
      t'.driver_license_number = (exTrucker 1 true 0).driver_license_number ∧
      t' ∈ (update_trucker ⟨[], [exTrucker 1 true 0], [], [], [], []⟩ 1
        ⟨none, none, none, none, none, none, none, none, some false⟩).1.truckers) := by
  refine ⟨?_, ?_, ?_, ?_⟩
  · have h := claim_c10_inactive_still_visible.1
      ⟨[exEmployee 1 false 0], [], [], [], [], []⟩ (exEmployee 1 false 0) (by decide)
    exact ⟨h.1, h.2.1, h.2.2.1, h.2.2.2 "1" (by decide)⟩
  · have h := claim_c10_inactive_still_visible.2.1
      ⟨[], [exTrucker 1 false 0], [], [], [], []⟩ (exTrucker 1 false 0) (by decide)
    exact ⟨h.1, h.2.1, h.2.2.1, h.2.2.2 "1" (by decide)⟩
  · exact claim_c10_inactive_still_visible.2.2.1
      ⟨[exEmployee 1 true 0], [], [], [], [], []⟩ 1 (exEmployee 1 true 0) (by decide)
  · exact claim_c10_inactive_still_visible.2.2.2
      ⟨[], [exTrucker 1 true 0], [], [], [], []⟩ 1 (exTrucker 1 true 0) (by decide)

end Warehouse